import Mathlib

/-!
Verification of the diff-driven PR analysis pipeline.

This file gives a shallow embedding, in Lean, of the pipeline implemented in
`backend/app`: the secret scanner (`services/secret_scanner.py`), the
dependency change analyzer (`services/dependency_scanner.py`), the risk scorer
(`services/risk_scorer.py`), the four analysis agents (`agents/*.py`) and the
orchestrator merge (`orchestrator/runner.py`).  Python strings are embedded as
`List Char`, Python ints as `Int` (or `Nat` where the source value is a count),
dictionaries carrying optional payload keys as records of `Option` fields, and
`try/except` blocks as functions over an `Except`-valued outcome of the guarded
body.  Regular-expression matching is embedded by an explicit backtracking
matcher over a token representation of each concrete pattern appearing in the
source; repetition bounds make the matcher total with a fuel argument that is
always sufficient (one unit per pattern token).
-/

namespace PRPipeline

/-- Python `str` is embedded as a list of characters. -/
abbrev Str := List Char

/-- Conversion from Lean string literals to the embedded string type. -/
def str (s : String) : Str := s.data

/-- Python `str.lower()` (ASCII, which covers every string the pipeline builds). -/
def strToLower (s : Str) : Str := s.map Char.toLower

/-- Python `str.startswith(pre)`. -/
def strStartsWith (s pre : Str) : Bool := pre.isPrefixOf s

/-- Python `str.endswith(suf)`. -/
def strEndsWith (s suf : Str) : Bool := suf.isSuffixOf s

/-- Python `sub in s` (substring containment). -/
def strContains : Str → Str → Bool
  | [], sub => sub.isEmpty
  | c :: rest, sub => sub.isPrefixOf (c :: rest) || strContains rest sub

/-- Python `s.split(sep)` for a one-character separator: `n` separators give
`n+1` (possibly empty) parts. -/
def splitChar (sep : Char) : Str → List Str
  | [] => [[]]
  | c :: rest =>
    if c = sep then [] :: splitChar sep rest
    else
      match splitChar sep rest with
      | [] => [[c]]
      | g :: gs => (c :: g) :: gs

/-- Splitting on a newline, as in `content.split('\n')`. -/
def splitLines (s : Str) : List Str := splitChar (Char.ofNat 10) s

/-- The whitespace characters of Python `str.strip()` and of the `\s` class
of the `re` module (ASCII). -/
def isReSpace (c : Char) : Bool :=
  c = Char.ofNat 32 || c = Char.ofNat 9 || c = Char.ofNat 10 ||
  c = Char.ofNat 13 || c = Char.ofNat 11 || c = Char.ofNat 12

/-- Python `str.strip()`. -/
def pyStrip (s : Str) : Str :=
  ((s.dropWhile isReSpace).reverse.dropWhile isReSpace).reverse

/-- The `\w` class of the `re` module (ASCII part). -/
def isWordChar (c : Char) : Bool := c.isAlphanum || c = Char.ofNat 95

/-- Numeric value of a run of decimal digits. -/
def digitsToNat (s : Str) : Nat :=
  s.foldl (fun a c => 10 * a + (c.toNat - 48)) 0

/-- Decimal rendering of a `Nat`, as Python string interpolation produces. -/
def natStr (n : Nat) : Str := Nat.toDigits 10 n

/-- Python `", ".join(parts)`. -/
def joinStr (sep : Str) : List Str → Str
  | [] => []
  | [x] => x
  | x :: y :: rest => x ++ sep ++ joinStr sep (y :: rest)

/-! ### Data model (`models/schemas.py`) -/

/-- Embeds `PRFileStatus` enumeration. -/
inductive PRFileStatus where
  | added
  | modified
  | removed
deriving DecidableEq, Repr

/-- The `.value` of a `PRFileStatus` member. -/
def statusValue : PRFileStatus → Str
  | .added => str "added"
  | .modified => str "modified"
  | .removed => str "removed"

/-- Embeds `PRFileModel`: one changed file of the pull request. -/
structure PRFileModel where
  filename : Str
  status : PRFileStatus
  additions : Nat
  deletions : Nat
  changes : Nat
  patch : Option Str
deriving DecidableEq, Repr

/-- Embeds `DependencyChange`. -/
structure DependencyChange where
  package : Str
  old_version : Option Str
  new_version : Option Str
  change_type : Str
  risk_level : Str
deriving DecidableEq, Repr

/-- Embeds `SecretDetection`: the finding never carries the matched secret value. -/
structure SecretDetection where
  pattern_type : Str
  filename : Str
  line_number : Int
  severity : Str
deriving DecidableEq, Repr

/-- Embeds `TestSuggestion`. -/
structure TestSuggestion where
  target_file : Str
  function_name : Option Str
  test_type : Str
  description : Str
  rationale : Str
  sample_stub : Option Str
deriving DecidableEq, Repr

/-- Embeds `ReviewChecklistItem`. -/
structure ReviewChecklistItem where
  category : Str
  text : Str
  severity : Str
  line_reference : Option Str
deriving DecidableEq, Repr

/-- Embeds `PRContext`: the change-set context assembled before the pipeline runs.
`language_stats` and `dependency_files` are Python dicts embedded as
insertion-ordered association lists. -/
structure PRContext where
  run_id : Str
  repo_full_name : Str
  pr_number : Nat
  head_sha : Str
  base_sha : Str
  files : List PRFileModel
  raw_diff : Str
  language_stats : List (Str × Nat)
  dependency_files : List (Str × Str)
  pr_title : Str
  pr_body : Option Str
  author : Str
  labels : List Str
deriving DecidableEq, Repr

/-! ### Risk scorer (`services/risk_scorer.py`)

`calculate_risk_score` receives a `Dict[str, Any]`; each key it reads is
embedded as a field of `RiskFactors`, with `factors.get(key, 0)` defaulting a
missing key to `0` (resp. `[]` for `dependency_changes`).  Callers that omit a
key are embedded by passing `0` in that field. -/

/-- The risk factors read by `RiskScorer.calculate_risk_score`. -/
structure RiskFactors where
  secrets_count : Int
  total_additions : Int
  dependency_changes : List DependencyChange
  security_files_changed : Int
  large_files_changed : Int
  total_files : Int
  binary_files_changed : Int
  database_files_changed : Int
  security_config_files_changed : Int
  deployment_files_changed : Int
  large_deletions : Int
deriving DecidableEq, Repr

/-- Embeds `RiskScorer.calculate_risk_score`: fixed per-factor additions, then the
result is clamped into `[0, 100]` (`min(self.max_score, max(0, score))`). -/
def calculateRiskScore (f : RiskFactors) : Int :=
  let score : Int := 0
  let score := if f.secrets_count > 0 then score + 25 else score
  let score := if f.total_additions > 1000 then score + 10 else score
  let high_risk_deps :=
    (f.dependency_changes.filter (fun d => d.risk_level = str "high")).length
  let score := if high_risk_deps > 0 then score + 15 else score
  let score := if f.security_files_changed > 0 then score + 10 else score
  let score := if f.large_files_changed > 0 then score + 10 else score
  let score := if f.total_files > 20 then score + 5 else score
  let score := if f.binary_files_changed > 0 then score + 5 else score
  let score := if f.database_files_changed > 0 then score + 8 else score
  let score := if f.security_config_files_changed > 0 then score + 12 else score
  let score := if f.deployment_files_changed > 0 then score + 7 else score
  let score := if f.large_deletions > 500 then score + 8 else score
  min 100 (max 0 score)

/-- The all-zero risk factors. -/
def zeroRiskFactors : RiskFactors :=
  ⟨0, 0, [], 0, 0, 0, 0, 0, 0, 0, 0⟩

/-- Risk factors satisfying every factor condition at once: the raw sum is
`25+10+15+10+10+5+5+8+12+7+8 = 115`. -/
def maxedRiskFactors : RiskFactors :=
  ⟨1, 1001, [⟨str "requests", none, some (str "2.0"), str "added", str "high"⟩],
   1, 1, 21, 1, 1, 1, 1, 501⟩

/-! ### A matcher for the concrete regular expressions of the source

Each pattern of `secret_scanner.py` is a sequence of literals, greedy
repetitions of one-character classes, and alternations of literal words, so a
pattern is embedded as a `List Tok` and matched with Python `re` semantics
(leftmost match, greedy repetition, backtracking from the longest repetition
count down to the smallest).  `reMatch fuel toks s` returns the number of
characters a match starting at the head of `s` consumes; one unit of fuel is
spent per token, so `toks.length + 1` fuel is always sufficient and the `0`
case is unreachable at every call site below. -/

/-- One token of an embedded regular expression. -/
inductive Tok where
  | lit (c : Char)
  | cls (p : Char → Bool) (lo : Nat) (hi : Option Nat)
  | altLit (alts : List Str)

/-- Length of the maximal run of characters satisfying `p`. -/
def countLead (p : Char → Bool) (s : Str) : Nat := (s.takeWhile p).length

/-- Greedy repetition: try `k, k-1, ..., lo` characters of the class and
continue with `m` on the rest (Python backtracking preference). -/
def tryFrom (m : Str → Option Nat) (ds : Str) (lo : Nat) : Nat → Option Nat
  | 0 =>
    if lo = 0 then m ds else none
  | k + 1 =>
    if k + 1 < lo then none
    else
      match m (ds.drop (k + 1)) with
      | some n => some (k + 1 + n)
      | none => tryFrom m ds lo k

/-- Alternation over literal words, tried in order. -/
def tryAlts (m : Str → Option Nat) (ds : Str) : List Str → Option Nat
  | [] => none
  | a :: as =>
    if a.isPrefixOf ds then
      match m (ds.drop a.length) with
      | some n => some (a.length + n)
      | none => tryAlts m ds as
    else tryAlts m ds as

/-- Match a token sequence at the head of a string, returning the number of
characters consumed by the match Python would produce. -/
def reMatch : Nat → List Tok → Str → Option Nat
  | 0, _, _ => none
  | _ + 1, [], _ => some 0
  | _ + 1, .lit _ :: _, [] => none
  | fuel + 1, .lit c :: rest, d :: ds =>
    if d = c then (reMatch fuel rest ds).map (· + 1) else none
  | fuel + 1, .cls p lo hi :: rest, ds =>
    let maxTake :=
      match hi with
      | none => countLead p ds
      | some h => min h (countLead p ds)
    tryFrom (reMatch fuel rest) ds lo maxTake
  | fuel + 1, .altLit alts :: rest, ds => tryAlts (reMatch fuel rest) ds alts

/-- Embeds `finditer` with at most `fuel` scanning steps: non-overlapping matches,
scanning left to right, advancing by the match length (by one position after
an empty match or a failure). -/
def findIterF (toks : List Tok) : Nat → Str → List Str
  | 0, _ => []
  | fuel + 1, s =>
    match reMatch (toks.length + 1) toks s with
    | some n =>
      if n = 0 then
        List.take n s ::
          (match s with
           | [] => []
           | _ :: rest => findIterF toks fuel rest)
      else List.take n s :: findIterF toks fuel (s.drop n)
    | none =>
      match s with
      | [] => []
      | _ :: rest => findIterF toks fuel rest

/-- All matches of a pattern in a string (`pattern.finditer(s)`); each scanning
step consumes at least one character, so `s.length + 1` steps always suffice. -/
def findIter (toks : List Tok) (s : Str) : List Str :=
  findIterF toks (s.length + 1) s

/-- A literal word as a token sequence. -/
def lits (s : String) : List Tok := s.data.map Tok.lit

/-! ### Secret scanner (`services/secret_scanner.py`) -/

/-- The double-quote character. -/
def dquote : Char := Char.ofNat 34

/-- The single-quote character. -/
def squote : Char := Char.ofNat 39

/-- Class `[0-9A-Z]`. -/
def clsUpperDigit (c : Char) : Bool := c.isDigit || c.isUpper

/-- Class `[A-Za-z0-9/+=]`. -/
def clsB64 (c : Char) : Bool := c.isAlphanum || c = '/' || c = '+' || c = '='

/-- Class `[A-Za-z0-9_]`. -/
def clsWord (c : Char) : Bool := isWordChar c

/-- Class `[0-9a-zA-Z]`. -/
def clsAlnum (c : Char) : Bool := c.isAlphanum

/-- Class `[A-Z]`. -/
def clsUpper (c : Char) : Bool := c.isUpper

/-- Class `['"\s]`. -/
def clsQuoteSpace (c : Char) : Bool := c = squote || c = dquote || isReSpace c

/-- Class `[:=]`. -/
def clsColonEq (c : Char) : Bool := c = ':' || c = '='

/-- Class `[_-]`. -/
def clsUnderDash (c : Char) : Bool := c = Char.ofNat 95 || c = '-'

/-- Class `[0-9a-zA-Z_-]` (generic API key body). -/
def clsKeyBody (c : Char) : Bool := c.isAlphanum || c = Char.ofNat 95 || c = '-'

/-- Class `[0-9a-zA-Z_\-!@#$%^&*()]` (password body). -/
def clsPwdBody (c : Char) : Bool :=
  c.isAlphanum || c = Char.ofNat 95 || c = '-' || c = '!' || c = '@' ||
  c = '#' || c = '$' || c = '%' || c = '^' || c = '&' || c = '*' ||
  c = '(' || c = ')'

/-- Class `[A-Za-z0-9_-]` (JWT segment). -/
def clsJwtBody (c : Char) : Bool := clsKeyBody c

/-- Class `[a-zA-Z0-9_.-]` (database URL component). -/
def clsUrlBody (c : Char) : Bool :=
  c.isAlphanum || c = Char.ofNat 95 || c = '.' || c = '-'

/-- Class `[a-zA-Z0-9._%+-]` (email local part). -/
def clsEmailLocal (c : Char) : Bool :=
  c.isAlphanum || c = '.' || c = Char.ofNat 95 || c = '%' || c = '+' || c = '-'

/-- Class `[a-zA-Z0-9.-]` (email domain). -/
def clsEmailDomain (c : Char) : Bool := c.isAlphanum || c = '.' || c = '-'

/-- Class `[a-zA-Z]`. -/
def clsAlpha (c : Char) : Bool := c.isAlpha

/-- Class `[pousr]` of the GitHub token pattern. -/
def clsGhKind (c : Char) : Bool :=
  c = 'p' || c = 'o' || c = 'u' || c = 's' || c = 'r'

/-- Class `[baprs]` of the Slack token pattern. -/
def clsSlackKind (c : Char) : Bool :=
  c = 'b' || c = 'a' || c = 'p' || c = 'r' || c = 's'

/-- One named pattern of `SecretScanner.patterns`; `ci` marks a `(?i)` flag,
embedded by matching lower-case literals against the lower-cased line (every
character class of the case-insensitive patterns is closed under case). -/
structure SecretPattern where
  key : Str
  description : Str
  ci : Bool
  toks : List Tok

/-- Embeds `AKIA[0-9A-Z]{16}`. -/
def awsAccessKeyPattern : SecretPattern :=
  ⟨str "aws_access_key", str "AWS Access Key ID", false,
   lits "AKIA" ++ [.cls clsUpperDigit 16 (some 16)]⟩

/-- Embeds `[A-Za-z0-9/+=]{40}`. -/
def awsSecretKeyPattern : SecretPattern :=
  ⟨str "aws_secret_key", str "AWS Secret Access Key", false,
   [.cls clsB64 40 (some 40)]⟩

/-- Embeds `gh[pousr]_[A-Za-z0-9_]{36,255}`. -/
def githubTokenPattern : SecretPattern :=
  ⟨str "github_token", str "GitHub Token", false,
   lits "gh" ++ [.cls clsGhKind 1 (some 1), .lit (Char.ofNat 95),
                 .cls clsWord 36 (some 255)]⟩

/-- Embeds `xox[baprs]-([0-9a-zA-Z]{10,48})`. -/
def slackTokenPattern : SecretPattern :=
  ⟨str "slack_token", str "Slack Token", false,
   lits "xox" ++ [.cls clsSlackKind 1 (some 1), .lit '-',
                  .cls clsAlnum 10 (some 48)]⟩

/-- Embeds `-----BEGIN [A-Z]+ PRIVATE KEY-----`. -/
def privateKeyPattern : SecretPattern :=
  ⟨str "private_key", str "Private Key", false,
   lits "-----BEGIN " ++ [.cls clsUpper 1 none] ++ lits " PRIVATE KEY-----"⟩

/-- Embeds `(?i)api[_-]?key['"\s]*[:=]['"\s]*[0-9a-zA-Z_\-]{16,128}`. -/
def apiKeyPattern : SecretPattern :=
  ⟨str "api_key", str "Generic API Key", true,
   lits "api" ++ [.cls clsUnderDash 0 (some 1)] ++ lits "key" ++
   [.cls clsQuoteSpace 0 none, .cls clsColonEq 1 (some 1),
    .cls clsQuoteSpace 0 none, .cls clsKeyBody 16 (some 128)]⟩

/-- Embeds `(?i)password['"\s]*[:=]['"\s]*[0-9a-zA-Z_\-!@#$%^&*()]{8,128}`. -/
def passwordPattern : SecretPattern :=
  ⟨str "password", str "Password", true,
   lits "password" ++
   [.cls clsQuoteSpace 0 none, .cls clsColonEq 1 (some 1),
    .cls clsQuoteSpace 0 none, .cls clsPwdBody 8 (some 128)]⟩

/-- Embeds `eyJ[A-Za-z0-9_-]*\.[A-Za-z0-9_-]*\.[A-Za-z0-9_-]*`. -/
def jwtTokenPattern : SecretPattern :=
  ⟨str "jwt_token", str "JWT Token", false,
   lits "eyJ" ++ [.cls clsJwtBody 0 none, .lit '.', .cls clsJwtBody 0 none,
                  .lit '.', .cls clsJwtBody 0 none]⟩

/-- Embeds `(?i)(postgres|mysql|mongodb)://[a-zA-Z0-9_.-]+:[a-zA-Z0-9_.-]+@[a-zA-Z0-9_.-]+`. -/
def databaseUrlPattern : SecretPattern :=
  ⟨str "database_url", str "Database Connection String", true,
   [.altLit [str "postgres", str "mysql", str "mongodb"]] ++ lits "://" ++
   [.cls clsUrlBody 1 none, .lit ':', .cls clsUrlBody 1 none, .lit '@',
    .cls clsUrlBody 1 none]⟩

/-- Embeds `[a-zA-Z0-9._%+-]+@[a-zA-Z0-9.-]+\.[a-zA-Z]{2,}:[a-zA-Z0-9_\-!@#$%^&*()]{6,}`. -/
def emailCredentialsPattern : SecretPattern :=
  ⟨str "email_credentials", str "Email with Password", false,
   [.cls clsEmailLocal 1 none, .lit '@', .cls clsEmailDomain 1 none,
    .lit '.', .cls clsAlpha 2 none, .lit ':', .cls clsPwdBody 6 none]⟩

/-- Embeds `SecretScanner.patterns`, in dictionary insertion order. -/
def secretPatterns : List SecretPattern :=
  [awsAccessKeyPattern, awsSecretKeyPattern, githubTokenPattern,
   slackTokenPattern, privateKeyPattern, apiKeyPattern, passwordPattern,
   jwtTokenPattern, databaseUrlPattern, emailCredentialsPattern]

/-- Embeds `SecretScanner._is_binary_file`. -/
def scannerIsBinaryFile (filename : Str) : Bool :=
  let fl := strToLower filename
  [str ".png", str ".jpg", str ".jpeg", str ".gif", str ".pdf", str ".zip",
   str ".tar", str ".gz", str ".exe", str ".dll", str ".so", str ".dylib",
   str ".bin", str ".dat", str ".db"].any (fun ext => strEndsWith fl ext)

/-- Embeds `SecretScanner._is_safe_line`.  Note that the marker list is compared
against the lower-cased line, exactly as the source does, so the three
upper-case entries can never match. -/
def isSafeLine (line0 filename : Str) : Bool :=
  let line := pyStrip line0
  if line.isEmpty then true
  else if strEndsWith filename (str ".py") && strStartsWith line (str "#") then true
  else if ([str ".js", str ".ts", str ".java", str ".go", str ".c",
            str ".cpp"].any (fun ext => strEndsWith filename ext)) &&
          strStartsWith line (str "//") then true
  else if strStartsWith line (str "/*") || strStartsWith line (str "*") ||
          strStartsWith line (str "*/") then true
  else if strEndsWith filename (str ".md") || strEndsWith filename (str ".rst") then true
  else
    let safe_markers :=
      [str "example", str "test", str "mock", str "fake", str "dummy",
       str "placeholder", str "YOUR_API_KEY", str "INSERT_KEY_HERE",
       str "REPLACE_WITH", str "xxx", str "yyy", str "zzz"]
    let line_lower := strToLower line
    safe_markers.any (fun marker => strContains line_lower marker)

/-- Embeds `SecretScanner._validate_detection` (its `line` argument is unused in the
source and therefore omitted here). -/
def validateDetection (key m filename : Str) : Bool :=
  let false_positives :=
    [str "password123", str "apikey123", str "secret123",
     str "your_api_key", str "your_password", str "your_secret"]
  if false_positives.any (fun fp => strToLower m = fp) then false
  else if key = str "aws_secret_key" &&
          !(m.any Char.isUpper && m.any Char.isLower && m.any Char.isDigit) then
    false
  else if key = str "jwt_token" && (splitChar '.' m).length ≠ 3 then false
  else if strContains (strToLower filename) (str "test") &&
          ([str "test_", str "mock_", str "fake_", str "example_"].any
            (fun p => strContains (strToLower m) p)) then
    false
  else true

/-- Embeds `SecretScanner._get_severity`. -/
def getSeverity (key : Str) : Str :=
  if [str "aws_access_key", str "aws_secret_key", str "private_key",
      str "database_url", str "github_token"].any (fun h => key = h) then
    str "high"
  else str "medium"

/-- The per-line scanning loop shared by `scan_content` and `scan_diff`: skip
safe lines, then run every pattern over the line and keep the validated
matches as detections. -/
def scanLineForSecrets (filename line : Str) (lineNum : Int) : List SecretDetection :=
  if isSafeLine line filename then []
  else
    secretPatterns.flatMap fun p =>
      let text := if p.ci then strToLower line else line
      (findIter p.toks text).filterMap fun m =>
        if validateDetection p.key m filename then
          some ⟨p.description, filename, lineNum, getSeverity p.key⟩
        else none

/-- Embeds `SecretScanner.scan_content`. -/
def scanContent (content filename : Str) : List SecretDetection :=
  if scannerIsBinaryFile filename || content.length > 1000000 then []
  else
    (splitLines content).enum.flatMap fun ie =>
      scanLineForSecrets filename ie.2 (Int.ofNat (ie.1 + 1))

/-- Embeds `re.search(r'\+(\d+)', line)`: the first `+` followed by a digit, with the
maximal digit run as the captured group. -/
def findPlusNum : Str → Option Nat
  | [] => none
  | '+' :: rest =>
    if (rest.headD ' ').isDigit && rest ≠ [] then
      some (digitsToNat (rest.takeWhile Char.isDigit))
    else findPlusNum rest
  | _ :: rest => findPlusNum rest

/-- The line loop of `SecretScanner.scan_diff`: a hunk header resets the
running destination line counter, added and context lines increment it, pure
deletion lines leave it unchanged, and only added lines are scanned. -/
def scanDiffGo (filename : Str) : List Str → Int → List SecretDetection
  | [], _ => []
  | line :: rest, lineNum =>
    if strStartsWith line (str "@@") then
      match findPlusNum line with
      | some c => scanDiffGo filename rest ((c : Int) - 1)
      | none => scanDiffGo filename rest lineNum
    else if strStartsWith line (str "+") && !strStartsWith line (str "+++") then
      scanLineForSecrets filename (line.drop 1) (lineNum + 1) ++
        scanDiffGo filename rest (lineNum + 1)
    else if !strStartsWith line (str "-") then
      scanDiffGo filename rest (lineNum + 1)
    else scanDiffGo filename rest lineNum

/-- Embeds `SecretScanner.scan_diff`. -/
def scanDiff (diff_content filename : Str) : List SecretDetection :=
  if scannerIsBinaryFile filename then []
  else scanDiffGo filename (splitLines diff_content) 0

/-! ### Dependency change analyzer (`services/dependency_scanner.py`) -/

/-- Embeds `DependencyScanner.high_risk_packages`. -/
def highRiskPackages : List Str :=
  [str "cryptography", str "pyjwt", str "requests", str "urllib3",
   str "flask", str "django", str "sqlalchemy", str "psycopg2",
   str "pymongo", str "redis", str "celery",
   str "express", str "axios", str "request", str "lodash", str "moment",
   str "jquery", str "react", str "vue", str "angular", str "webpack",
   str "babel",
   str "openssl", str "ssh", str "ssl", str "tls", str "oauth", str "jwt"]

/-- Embeds `DependencyScanner._assess_package_risk`: high-risk list membership is a
substring test against the lower-cased package name. -/
def assessPackageRisk (package change_type : Str) : Str :=
  let package_lower := strToLower package
  if highRiskPackages.any (fun risk_pkg => strContains package_lower risk_pkg) then
    str "high"
  else if [str "auth", str "crypto", str "security", str "ssl", str "tls",
           str "jwt", str "oauth"].any
            (fun keyword => strContains package_lower keyword) then
    str "medium"
  else if change_type = str "downgraded" then str "medium"
  else str "low"

/-- Python `x.isdigit()` for ASCII strings: non-empty and all digits. -/
def pyIsDigits (s : Str) : Bool := !s.isEmpty && s.all Char.isDigit

/-- The numeric components of a version string:
`[int(x) for x in v.split('.') if x.isdigit()]`. -/
def versionComponents (v : Str) : List Nat :=
  ((splitChar '.' v).filter pyIsDigits).map digitsToNat

/-- Python list comparison `a > b` on lists of ints (lexicographic). -/
def pyListGt : List Nat → List Nat → Bool
  | [], _ => false
  | _ :: _, [] => true
  | a :: as, b :: bs =>
    if a > b then true else if a < b then false else pyListGt as bs

/-- Pad a component list with trailing zeros up to length `m`. -/
def padTo (l : List Nat) (m : Nat) : List Nat :=
  l ++ List.replicate (m - l.length) 0

/-- The comparison step of `_determine_version_change_type` on already parsed
component lists: pad the shorter list with zeros, then compare. -/
def classifyComponents (old_parts new_parts : List Nat) : Str :=
  let max_len := max old_parts.length new_parts.length
  let o := padTo old_parts max_len
  let n := padTo new_parts max_len
  if pyListGt n o then str "upgraded"
  else if pyListGt o n then str "downgraded"
  else str "modified"

/-- Embeds `DependencyScanner._determine_version_change_type`.  The `except` branch of
the source is unreachable for ASCII inputs, since `int(x)` succeeds on every
string of ASCII digits. -/
def determineVersionChangeType (old_version new_version : Str) : Str :=
  classifyComponents (versionComponents old_version) (versionComponents new_version)

/-- Characters of the class `[a-zA-Z0-9_-]` used by the requirement and TOML
package-name groups. -/
def isPkgNameChar (c : Char) : Bool := c.isAlphanum || c = Char.ofNat 95 || c = '-'

/-- Characters of the requirement operator class `[><=~!]`. -/
def isReqOpChar (c : Char) : Bool :=
  c = '>' || c = '<' || c = '=' || c = '~' || c = '!'

/-- Embeds `re.match(r'^([a-zA-Z0-9_-]+)([><=~!]+)(.+)$', line)`, returning the name
group and the stripped version group.  The operator run is greedy; when
nothing is left for `(.+)` the regex backtracks one operator character into
the version group. -/
def parseRequirementLine (line : Str) : Option (Str × Str) :=
  let name := line.takeWhile isPkgNameChar
  if name.isEmpty then none
  else
    let rest := line.drop name.length
    let ops := rest.takeWhile isReqOpChar
    if ops.isEmpty then none
    else
      let ver := rest.drop ops.length
      if ver.isEmpty then
        if ops.length ≥ 2 then some (name, pyStrip (ops.drop (ops.length - 1)))
        else none
      else some (name, pyStrip ver)

/-- Insertion into a Python dict embedded as an association list: an existing
key is overwritten in place, a new key is appended. -/
def dictInsert (d : List (Str × Str)) (k v : Str) : List (Str × Str) :=
  if d.any (fun kv => kv.1 = k) then
    d.map (fun kv => if kv.1 = k then (k, v) else kv)
  else d ++ [(k, v)]

/-- Python `d.get(k)`. -/
def dictGet (d : List (Str × Str)) (k : Str) : Option Str :=
  (d.find? (fun kv => kv.1 = k)).map (fun kv => kv.2)

/-- Embeds `DependencyScanner._parse_python_packages`. -/
def parsePythonPackages (lines : List Str) : List (Str × Str) :=
  lines.foldl
    (fun packages line0 =>
      let line := pyStrip line0
      if line.isEmpty || strStartsWith line (str "#") then packages
      else
        match parseRequirementLine line with
        | some (package, version) => dictInsert packages package version
        | none =>
          if !line.isEmpty && line.all isPkgNameChar then
            dictInsert packages line (str "latest")
          else packages)
    []

/-- The change built for one package of the union of both maps, following the
`if old_version and new_version / elif new_version / elif old_version`
cascade of `_analyze_python_requirements`. -/
def requirementChangeFor (removed_packages added_packages : List (Str × Str))
    (package : Str) : List DependencyChange :=
  let old_version := dictGet removed_packages package
  let new_version := dictGet added_packages package
  match old_version, new_version with
  | some o, some n =>
    let change_type := determineVersionChangeType o n
    [⟨package, some o, some n, change_type, assessPackageRisk package change_type⟩]
  | none, some n =>
    [⟨package, none, some n, str "added", assessPackageRisk package (str "added")⟩]
  | some o, none =>
    [⟨package, some o, none, str "removed", assessPackageRisk package (str "removed")⟩]
  | none, none => []

/-- The loop over `all_packages = set(added) | set(removed)` of
`_analyze_python_requirements`.  Python iterates the set in an unspecified
order; the embedding fixes the order (added keys first, then the removed-only
keys), and every theorem below is order-insensitive (membership only). -/
def requirementsChangesFromMaps (added_packages removed_packages : List (Str × Str)) :
    List DependencyChange :=
  let addedKeys := added_packages.map (fun kv => kv.1)
  let removedKeys := removed_packages.map (fun kv => kv.1)
  let all_packages := addedKeys ++ removedKeys.filter (fun k => decide (k ∉ addedKeys))
  all_packages.flatMap (requirementChangeFor removed_packages added_packages)

/-- The added/removed patch lines collected by `_analyze_python_requirements`
(`line[1:].strip()` of the `+`/`-` lines, excluding the `+++`/`---` markers). -/
def patchAddedLines (patch : Str) : List Str :=
  (splitLines patch).filterMap fun line =>
    if strStartsWith line (str "+") && !strStartsWith line (str "+++") then
      some (pyStrip (line.drop 1))
    else none

/-- The removed patch lines, symmetric to `patchAddedLines`. -/
def patchRemovedLines (patch : Str) : List Str :=
  (splitLines patch).filterMap fun line =>
    if strStartsWith line (str "-") && !strStartsWith line (str "---") then
      some (pyStrip (line.drop 1))
    else none

/-- Embeds `next((f for f in ctx.files if f.filename == filename), None)` followed by
the `if not pr_file or not pr_file.patch` guard: the patch of the matching
file when it is present and non-empty. -/
def findFilePatch (ctx : PRContext) (filename : Str) : Option Str :=
  match ctx.files.find? (fun f => f.filename = filename) with
  | none => none
  | some f =>
    match f.patch with
    | none => none
    | some p => if p.isEmpty then none else some p

/-- Embeds `DependencyScanner._analyze_python_requirements` (its `content` argument is
unused in the source). -/
def analyzePythonRequirements (filename _content : Str) (ctx : PRContext) :
    List DependencyChange :=
  match findFilePatch ctx filename with
  | none => []
  | some patch =>
    requirementsChangesFromMaps
      (parsePythonPackages (patchAddedLines patch))
      (parsePythonPackages (patchRemovedLines patch))

/-- Embeds `re.search(r'"([^"]+)":\s*"([^"]+)"', line)` matched at the head of the
string. -/
def jsonPairAt (s : Str) : Option (Str × Str) :=
  match s with
  | c :: rest =>
    if c = dquote then
      let name := rest.takeWhile (fun d => d ≠ dquote)
      if name.isEmpty then none
      else
        match rest.drop name.length with
        | q :: colon :: rest2 =>
          if q = dquote && colon = ':' then
            match rest2.dropWhile isReSpace with
            | q2 :: rest3 =>
              if q2 = dquote then
                let ver := rest3.takeWhile (fun d => d ≠ dquote)
                if ver.isEmpty then none
                else
                  match rest3.drop ver.length with
                  | q3 :: _ => if q3 = dquote then some (name, ver) else none
                  | [] => none
              else none
            | [] => none
          else none
        | _ => none
    else none
  | [] => none

/-- Embeds `re.search` scanning for `jsonPairAt`: the leftmost matching position. -/
def findJsonPair : Str → Option (Str × Str)
  | [] => none
  | c :: rest =>
    match jsonPairAt (c :: rest) with
    | some r => some r
    | none => findJsonPair rest

/-- Embeds `DependencyScanner._analyze_package_json`: only added lines are examined
and every extracted entry is reported as `added`. -/
def analyzePackageJson (filename _content : Str) (ctx : PRContext) :
    List DependencyChange :=
  match findFilePatch ctx filename with
  | none => []
  | some patch =>
    (splitLines patch).filterMap fun line =>
      if strStartsWith line (str "+") && strContains line [dquote] &&
         strContains line (str ":") then
        match findJsonPair line with
        | some (package, version) =>
          if !strStartsWith package (str "_") && !strContains package (str "/") then
            some ⟨package, none, some version, str "added",
                  assessPackageRisk package (str "added")⟩
          else none
        | none => none
      else none

/-- Embeds `re.search(r'([a-zA-Z0-9_-]+)\s*=\s*"([^"]+)"', line)` matched at the head
of the string. -/
def tomlPairAt (s : Str) : Option (Str × Str) :=
  let name := s.takeWhile isPkgNameChar
  if name.isEmpty then none
  else
    match (s.drop name.length).dropWhile isReSpace with
    | eq :: rest2 =>
      if eq = '=' then
        match rest2.dropWhile isReSpace with
        | q :: rest3 =>
          if q = dquote then
            let ver := rest3.takeWhile (fun d => d ≠ dquote)
            if ver.isEmpty then none
            else
              match rest3.drop ver.length with
              | q2 :: _ => if q2 = dquote then some (name, ver) else none
              | [] => none
          else none
        | [] => none
      else none
    | [] => none

/-- Embeds `re.search` scanning for `tomlPairAt`. -/
def findTomlPair : Str → Option (Str × Str)
  | [] => none
  | c :: rest =>
    match tomlPairAt (c :: rest) with
    | some r => some r
    | none => findTomlPair rest

/-- Embeds `DependencyScanner._analyze_python_pipfile`: added lines only, always
reported as `added`. -/
def analyzePythonPipfile (filename _content : Str) (ctx : PRContext) :
    List DependencyChange :=
  match findFilePatch ctx filename with
  | none => []
  | some patch =>
    (splitLines patch).filterMap fun line =>
      if strStartsWith line (str "+") && strContains line (str "=") then
        match findTomlPair line with
        | some (package, version) =>
          some ⟨package, none, some version, str "added",
                assessPackageRisk package (str "added")⟩
        | none => none
      else none

/-- Embeds `re.search(r'require\s+([^\s]+)\s+(v[^\s]+)', line)` matched at the head
of the string. -/
def goRequireAt (s : Str) : Option (Str × Str) :=
  if strStartsWith s (str "require") then
    let r1 := s.drop 7
    let sp1 := r1.takeWhile isReSpace
    if sp1.isEmpty then none
    else
      let r2 := r1.drop sp1.length
      let pkg := r2.takeWhile (fun c => !isReSpace c)
      if pkg.isEmpty then none
      else
        let r3 := r2.drop pkg.length
        let sp2 := r3.takeWhile isReSpace
        if sp2.isEmpty then none
        else
          match r3.drop sp2.length with
          | v :: r4 =>
            if v = 'v' then
              let tail := r4.takeWhile (fun c => !isReSpace c)
              if tail.isEmpty then none else some (pkg, 'v' :: tail)
            else none
          | [] => none
  else none

/-- Embeds `re.search` scanning for `goRequireAt`. -/
def findGoRequire : Str → Option (Str × Str)
  | [] => none
  | c :: rest =>
    match goRequireAt (c :: rest) with
    | some r => some r
    | none => findGoRequire rest

/-- Embeds `DependencyScanner._analyze_go_mod`: added lines only, always reported as
`added`. -/
def analyzeGoMod (filename _content : Str) (ctx : PRContext) :
    List DependencyChange :=
  match findFilePatch ctx filename with
  | none => []
  | some patch =>
    (splitLines patch).filterMap fun line =>
      if strStartsWith line (str "+") && strContains line (str "require") then
        match findGoRequire line with
        | some (package, version) =>
          some ⟨package, none, some version, str "added",
                assessPackageRisk package (str "added")⟩
        | none => none
      else none

/-- Embeds `DependencyScanner.analyze_dependency_file`: dispatch on the manifest
filename; unsupported filenames yield an empty list. -/
def analyzeDependencyFile (filename content : Str) (ctx : PRContext) :
    List DependencyChange :=
  if strEndsWith filename (str "requirements.txt") ||
     strEndsWith filename (str "requirements-dev.txt") then
    analyzePythonRequirements filename content ctx
  else if filename = str "package.json" then
    analyzePackageJson filename content ctx
  else if filename = str "Pipfile" || filename = str "pyproject.toml" then
    analyzePythonPipfile filename content ctx
  else if filename = str "go.mod" || filename = str "go.sum" then
    analyzeGoMod filename content ctx
  else []

/-! ### Agent results and payloads

An agent payload is a Python `Dict[str, Any]`; the orchestrator reads it with
`payload.get(key, default)`.  The embedding keeps exactly the keys the
orchestrator merge reads, each as an `Option` field (`none` = key absent).
The remaining payload keys of the source (`diff_stats`, `hotspots`,
`security_analysis`, `analysis_summary`) are never read by the merge and are
not represented. -/

/-- The merged payload keys of an agent result. -/
structure AgentPayload where
  summary : Option Str
  changelog : Option (List (Str × List Str))
  complexity_flags : Option (List Str)
  risk_score : Option Int
  risk_factors : Option (List Str)
  secrets_detected : Option (List SecretDetection)
  dependency_changes : Option (List DependencyChange)
  test_suggestions : Option (List TestSuggestion)
  review_checklist : Option (List ReviewChecklistItem)
deriving DecidableEq

/-- The payload with every key absent. -/
def emptyPayload : AgentPayload :=
  ⟨none, none, none, none, none, none, none, none, none⟩

/-- Embeds `AgentResult` (its wall-clock `execution_time_ms` field is not modelled). -/
structure AgentResult where
  name : Str
  payload : AgentPayload
  warnings : List Str
deriving DecidableEq

/-! ### Risk & Security agent (`agents/risk_security.py`) -/

/-- Embeds `RiskSecurityAgent._is_security_file`: substring patterns against the
lower-cased filename.  The list has no `auth`/`login` entry. -/
def isSecurityFile (filename : Str) : Bool :=
  let filename_lower := strToLower filename
  [str "security", str "sec_", str "crypto", str "encryption", str "decrypt",
   str "certificate", str "cert", str "ssl", str "tls", str "key", str "token",
   str "password", str "passwd", str "secret", str "private"].any
    (fun pattern => strContains filename_lower pattern)

/-- Embeds `RiskSecurityAgent._is_auth_file`. -/
def isAuthFile (filename : Str) : Bool :=
  let filename_lower := strToLower filename
  [str "auth", str "login", str "logout", str "signin", str "signup",
   str "permission", str "role", str "access", str "oauth", str "jwt",
   str "session", str "middleware/auth", str "guards/",
   str "decorators/auth"].any (fun pattern => strContains filename_lower pattern)

/-- Embeds `RiskSecurityAgent._is_config_file`. -/
def rsAgentIsConfigFile (filename : Str) : Bool :=
  let filename_lower := strToLower filename
  [str ".env", str ".ini", str ".conf", str ".config", str "settings",
   str ".yml", str ".yaml", str ".json", str "docker", str "makefile"].any
    (fun pattern => strContains filename_lower pattern)

/-- Embeds `RiskSecurityAgent._is_database_file`. -/
def isDatabaseFile (filename : Str) : Bool :=
  let filename_lower := strToLower filename
  [str "migration", str "migrate", str "schema", str "database", str "db_",
   str ".sql", str "models/", str "entity/", str "repository/"].any
    (fun pattern => strContains filename_lower pattern)

/-- Embeds `RiskSecurityAgent._is_deployment_file`. -/
def isDeploymentFile (filename : Str) : Bool :=
  let filename_lower := strToLower filename
  [str "dockerfile", str "docker-compose", str ".github/workflows",
   str "deploy", str "deployment", str "terraform", str ".tf",
   str "kubernetes", str "k8s", str "helm", str "ansible"].any
    (fun pattern => strContains filename_lower pattern)

/-- Embeds `RiskSecurityAgent._is_binary_file` (a shorter list than the scanner's). -/
def rsAgentIsBinaryFile (filename : Str) : Bool :=
  let fl := strToLower filename
  [str ".png", str ".jpg", str ".jpeg", str ".gif", str ".pdf", str ".zip",
   str ".tar", str ".gz", str ".exe", str ".dll", str ".so", str ".dylib",
   str ".bin"].any (fun ext => strEndsWith fl ext)

/-- Embeds `RiskSecurityAgent._scan_for_secrets`: `scan_diff` over every non-binary
file with a non-empty patch, then `scan_content` over every non-empty
dependency-manifest content. -/
def scanForSecrets (ctx : PRContext) : List SecretDetection :=
  (ctx.files.flatMap fun f =>
    if rsAgentIsBinaryFile f.filename then []
    else
      match f.patch with
      | none => []
      | some p => if p.isEmpty then [] else scanDiff p f.filename) ++
  (ctx.dependency_files.flatMap fun fc =>
    if fc.2.isEmpty then [] else scanContent fc.2 fc.1)

/-- Embeds `RiskSecurityAgent._analyze_dependency_changes`.  The per-file
`try/except` of the source only logs; `analyze_dependency_file` is total on
every string input, so the handler is embedded directly. -/
def analyzeDependencyChanges (ctx : PRContext) : List DependencyChange :=
  ctx.dependency_files.flatMap fun fc =>
    if fc.2.isEmpty then [] else analyzeDependencyFile fc.1 fc.2 ctx

/-- Embeds `RiskSecurityAgent._analyze_security_implications`: the free-text
risk-factor narratives. -/
def analyzeSecurityImplications (ctx : PRContext) : List Str :=
  let security_files := ctx.files.filter (fun f => isSecurityFile f.filename)
  let auth_files := ctx.files.filter (fun f => isAuthFile f.filename)
  let config_files := ctx.files.filter (fun f => rsAgentIsConfigFile f.filename)
  let security_config_files := config_files.filterMap fun f =>
    match f.patch with
    | some p =>
      if [str "password", str "secret", str "key", str "token", str "auth",
          str "security", str "ssl", str "tls"].any
           (fun keyword => strContains (strToLower p) keyword) then
        some f.filename
      else none
    | none => none
  let large_deletions := ctx.files.filter (fun f => f.deletions > 100)
  let db_files := ctx.files.filter (fun f => isDatabaseFile f.filename)
  let deploy_files := ctx.files.filter (fun f => isDeploymentFile f.filename)
  (if security_files.length > 0 then
    [str "Security-sensitive files modified: " ++ natStr security_files.length ++
     str " files"] else []) ++
  (if auth_files.length > 0 then
    [str "Authentication/authorization files modified: " ++
     natStr auth_files.length ++ str " files"] else []) ++
  (if config_files.length > 0 && security_config_files.length > 0 then
    [str "Security configuration changes detected in: " ++
     joinStr (str ", ") security_config_files] else []) ++
  (if large_deletions.length > 0 then
    [str "Large deletions detected: " ++ natStr large_deletions.length ++
     str " files with significant content removal"] else []) ++
  (if db_files.length > 0 then
    [str "Database/migration files modified: " ++ natStr db_files.length ++
     str " files"] else []) ++
  (if deploy_files.length > 0 then
    [str "Deployment configuration changes: " ++ natStr deploy_files.length ++
     str " files"] else [])

/-- The factor dictionary built at `risk_security.py:54-60`.  The agent
supplies exactly five keys; every other factor read by
`calculate_risk_score` is absent from the dictionary and therefore defaults
to `0` via `factors.get(key, 0)`. -/
def riskSecurityFactors (ctx : PRContext) (secrets : List SecretDetection)
    (deps : List DependencyChange) : RiskFactors where
  secrets_count := secrets.length
  total_additions := Int.ofNat (ctx.files.map (fun f => f.additions)).sum
  dependency_changes := deps
  security_files_changed :=
    (ctx.files.filter (fun f => isSecurityFile f.filename)).length
  large_files_changed :=
    (ctx.files.filter (fun f => f.additions + f.deletions > 200)).length
  total_files := 0
  binary_files_changed := 0
  database_files_changed := 0
  security_config_files_changed := 0
  deployment_files_changed := 0
  large_deletions := 0

/-- The `try`-block body of `RiskSecurityAgent.run`. -/
def riskSecurityBody (ctx : PRContext) : AgentPayload :=
  let secrets_detected := scanForSecrets ctx
  let dependency_changes := analyzeDependencyChanges ctx
  let risk_factors :=
    (if secrets_detected.length > 0 then
      [str "Potential secrets detected: " ++ natStr secrets_detected.length ++
       str " occurrences"] else []) ++
    (if dependency_changes.length > 0 &&
        (dependency_changes.filter
          (fun d => d.risk_level = str "high")).length > 0 then
      [str "High-risk dependency changes: " ++
       natStr (dependency_changes.filter
         (fun d => d.risk_level = str "high")).length ++ str " packages"]
     else []) ++
    analyzeSecurityImplications ctx
  let risk_score :=
    calculateRiskScore (riskSecurityFactors ctx secrets_detected dependency_changes)
  { emptyPayload with
    risk_score := some risk_score
    risk_factors := some risk_factors
    secrets_detected := some secrets_detected
    dependency_changes := some dependency_changes }

/-- The fallback score of the `except` branch of `RiskSecurityAgent.run`:
`min(100, len(ctx.files) * 5 + total_additions // 100)`. -/
def riskSecurityBasicRisk (ctx : PRContext) : Nat :=
  min 100 (ctx.files.length * 5 + (ctx.files.map (fun f => f.additions)).sum / 100)

/-- Embeds `RiskSecurityAgent.run` as a function of the outcome of its `try` block:
`.ok` is the normal path, `.error e` the `except Exception` path, which
appends exactly one warning and returns the minimal fallback payload. -/
def riskSecurityRunWith (ctx : PRContext) (attempt : Except Str AgentPayload) :
    AgentResult :=
  match attempt with
  | .ok payload => ⟨str "risk_security", payload, []⟩
  | .error e =>
    ⟨str "risk_security",
     { emptyPayload with
       risk_score := some (Int.ofNat (riskSecurityBasicRisk ctx))
       risk_factors := some [str "Unable to complete full security analysis"]
       secrets_detected := some []
       dependency_changes := some [] },
     [str "Error during security analysis: " ++ e]⟩

/-- Embeds `RiskSecurityAgent.run` on the (exception-free) normal path. -/
def riskSecurityRun (ctx : PRContext) : AgentResult :=
  riskSecurityRunWith ctx (.ok (riskSecurityBody ctx))

/-- Embeds `RepoScannerAgent.run` as a function of the outcome of its `try` block
(the fallback payload of its `except` branch, and one warning). -/
def repoScannerRunWith (attempt : Except Str AgentPayload) : AgentResult :=
  match attempt with
  | .ok payload => ⟨str "repo_scanner", payload, []⟩
  | .error e =>
    ⟨str "repo_scanner",
     { emptyPayload with
       summary := some (str "Error occurred during analysis")
       changelog := some []
       complexity_flags := some [] },
     [str "Error during repository scanning: " ++ e]⟩

/-- Embeds `TestSynthesizerAgent.run` as a function of the outcome of its `try`
block. -/
def testSynthesizerRunWith (attempt : Except Str AgentPayload) : AgentResult :=
  match attempt with
  | .ok payload => ⟨str "test_synthesizer", payload, []⟩
  | .error e =>
    ⟨str "test_synthesizer",
     { emptyPayload with test_suggestions := some [] },
     [str "Error during test synthesis: " ++ e]⟩

/-- Embeds `ReviewerAgent.run` as a function of the outcome of its `try` block. -/
def reviewerRunWith (attempt : Except Str AgentPayload) : AgentResult :=
  match attempt with
  | .ok payload => ⟨str "reviewer", payload, []⟩
  | .error e =>
    ⟨str "reviewer",
     { emptyPayload with
       review_checklist :=
         some [⟨str "General",
                str "Standard code review (automated analysis failed)",
                str "medium", none⟩] },
     [str "Error during review analysis: " ++ e]⟩

/-! ### Orchestrator merge (`orchestrator/runner.py`, `run_agent_pipeline`) -/

/-- Embeds `PRAnalysis` (wall-clock fields `agent_times_ms` and `created_at` are not
modelled). -/
structure PRAnalysis where
  run_id : Str
  repo_full_name : Str
  pr_number : Nat
  head_sha : Str
  base_sha : Str
  summary : Str
  changelog : List (Str × List Str)
  complexity_flags : List Str
  risk_score : Int
  risk_factors : List Str
  secrets_detected : List SecretDetection
  dependency_changes : List DependencyChange
  test_suggestions : List TestSuggestion
  review_checklist : List ReviewChecklistItem
  total_files : Nat
  total_additions : Nat
  total_deletions : Nat
deriving DecidableEq

/-- The merge step of `run_agent_pipeline`: each report field is read from one
stage's payload with `payload.get(key, default)`, so an absent key degrades to
an empty or zero default. -/
def mergePRAnalysis (ctx : PRContext)
    (repo_scanner risk_security test_synthesizer reviewer : AgentResult) :
    PRAnalysis where
  run_id := ctx.run_id
  repo_full_name := ctx.repo_full_name
  pr_number := ctx.pr_number
  head_sha := ctx.head_sha
  base_sha := ctx.base_sha
  summary := repo_scanner.payload.summary.getD []
  changelog := repo_scanner.payload.changelog.getD []
  complexity_flags := repo_scanner.payload.complexity_flags.getD []
  risk_score := risk_security.payload.risk_score.getD 0
  risk_factors := risk_security.payload.risk_factors.getD []
  secrets_detected := risk_security.payload.secrets_detected.getD []
  dependency_changes := risk_security.payload.dependency_changes.getD []
  test_suggestions := test_synthesizer.payload.test_suggestions.getD []
  review_checklist := reviewer.payload.review_checklist.getD []
  total_files := ctx.files.length
  total_additions := (ctx.files.map (fun f => f.additions)).sum
  total_deletions := (ctx.files.map (fun f => f.deletions)).sum

/-! ### Test synthesizer agent (`agents/test_synthesizer.py`)

The per-language function patterns are embedded as dedicated matchers, one per
regular expression of `self.function_patterns`, each reproducing Python `re`
search semantics for its anchored pattern. -/

/-- Embeds `^\s*def\s+(\w+)\s*\(` (key `py`). -/
def pyFunctionName (content : Str) : Option Str :=
  let s1 := content.dropWhile isReSpace
  if strStartsWith s1 (str "def") then
    let s2 := s1.drop 3
    let sp := s2.takeWhile isReSpace
    if sp.isEmpty then none
    else
      let s3 := s2.drop sp.length
      let name := s3.takeWhile isWordChar
      if name.isEmpty then none
      else
        match (s3.drop name.length).dropWhile isReSpace with
        | c :: _ => if c = '(' then some name else none
        | [] => none
  else none

/-- Embeds `^\s*func\s+(\w+)\s*\(` (key `go`). -/
def goFunctionName (content : Str) : Option Str :=
  let s1 := content.dropWhile isReSpace
  if strStartsWith s1 (str "func") then
    let s2 := s1.drop 4
    let sp := s2.takeWhile isReSpace
    if sp.isEmpty then none
    else
      let s3 := s2.drop sp.length
      let name := s3.takeWhile isWordChar
      if name.isEmpty then none
      else
        match (s3.drop name.length).dropWhile isReSpace with
        | c :: _ => if c = '(' then some name else none
        | [] => none
  else none

/-- The `fn\s+(\w+)\s*\(` tail of the Rust pattern. -/
def rsFnTail (s : Str) : Option Str :=
  if strStartsWith s (str "fn") then
    let s2 := s.drop 2
    let sp := s2.takeWhile isReSpace
    if sp.isEmpty then none
    else
      let s3 := s2.drop sp.length
      let name := s3.takeWhile isWordChar
      if name.isEmpty then none
      else
        match (s3.drop name.length).dropWhile isReSpace with
        | c :: _ => if c = '(' then some name else none
        | [] => none
  else none

/-- Embeds `^\s*(?:pub\s+)?fn\s+(\w+)\s*\(` (key `rs`): the optional `pub` prefix is
tried first, then dropped, as the greedy `?` does. -/
def rsFunctionName (content : Str) : Option Str :=
  let s1 := content.dropWhile isReSpace
  let withPub :=
    if strStartsWith s1 (str "pub") then
      let s2 := s1.drop 3
      let sp := s2.takeWhile isReSpace
      if sp.isEmpty then none else rsFnTail (s2.drop sp.length)
    else none
  match withPub with
  | some n => some n
  | none => rsFnTail s1

/-- Embeds `^\s*(?:function\s+(\w+)|(\w+)\s*[:=]\s*(?:function|\([^)]*\)\s*=>))`
(key `js`): the first alternative captures group 1, the second group 2, and
the extractor takes `match.group(1) or match.group(2)`. -/
def jsFunctionName (content : Str) : Option Str :=
  let s1 := content.dropWhile isReSpace
  let alt1 :=
    if strStartsWith s1 (str "function") then
      let s2 := s1.drop 8
      let sp := s2.takeWhile isReSpace
      if sp.isEmpty then none
      else
        let name := (s2.drop sp.length).takeWhile isWordChar
        if name.isEmpty then none else some name
    else none
  match alt1 with
  | some n => some n
  | none =>
    let name := s1.takeWhile isWordChar
    if name.isEmpty then none
    else
      match (s1.drop name.length).dropWhile isReSpace with
      | c :: r2 =>
        if c = ':' || c = '=' then
          let r3 := r2.dropWhile isReSpace
          if strStartsWith r3 (str "function") then some name
          else
            match r3 with
            | p :: r4 =>
              if p = '(' then
                let args := r4.takeWhile (fun d => d ≠ ')')
                match r4.drop args.length with
                | close :: r5 =>
                  if close = ')' then
                    match r5.dropWhile isReSpace with
                    | e1 :: e2 :: _ => if e1 = '=' && e2 = '>' then some name else none
                    | _ => none
                  else none
                | [] => none
              else none
            | [] => none
        else none
      | [] => none

/-- The `(?:\w+\s+)*(\w+)\s*\(` tail of the Java pattern: greedy repetitions
of word-plus-space groups with backtracking, then the captured name.  Each
step consumes the non-empty leading word run, so `s.length + 1` fuel always
suffices and the `0` case is unreachable. -/
def javaTailF : Nat → Str → Option Str
  | 0, _ => none
  | fuel + 1, s =>
    let w := s.takeWhile isWordChar
    if w.isEmpty then none
    else
      let r := s.drop w.length
      let sp := r.takeWhile isReSpace
      let r2 := r.drop sp.length
      let deeper := if sp.isEmpty then none else javaTailF fuel r2
      match deeper with
      | some n => some n
      | none =>
        match r2 with
        | c :: _ => if c = '(' then some w else none
        | [] => none

/-- The Java tail matcher with ample fuel. -/
def javaTail (s : Str) : Option Str := javaTailF (s.length + 1) s

/-- Embeds `^\s*(?:public|private|protected)?\s*(?:static\s+)?(?:\w+\s+)*(\w+)\s*\(`
(key `java`). -/
def javaFunctionName (content : Str) : Option Str :=
  let s1 := content.dropWhile isReSpace
  let afterKw : Str → Option Str := fun s =>
    let s2 := s.dropWhile isReSpace
    let withStatic :=
      if strStartsWith s2 (str "static") then
        let s3 := s2.drop 6
        let sp := s3.takeWhile isReSpace
        if sp.isEmpty then none else javaTail (s3.drop sp.length)
      else none
    match withStatic with
    | some n => some n
    | none => javaTail s2
  let withAccess :=
    if strStartsWith s1 (str "public") then afterKw (s1.drop 6)
    else if strStartsWith s1 (str "private") then afterKw (s1.drop 7)
    else if strStartsWith s1 (str "protected") then afterKw (s1.drop 9)
    else none
  match withAccess with
  | some n => some n
  | none => afterKw s1

/-- Embeds `TestSynthesizerAgent.function_patterns`, keyed by file extension. -/
def tsFunctionPatterns : List (Str × (Str → Option Str)) :=
  [(str "py", pyFunctionName), (str "js", jsFunctionName),
   (str "java", javaFunctionName), (str "go", goFunctionName),
   (str "rs", rsFunctionName)]

/-- One entry of the list built by `_extract_functions_from_patch`. -/
structure FunctionInfo where
  name : Str
  change_type : Str
  line : Str
deriving DecidableEq, Repr

/-- Embeds `filename.split('.')[-1] if '.' in filename else ''`. -/
def extOf (filename : Str) : Str :=
  if strContains filename (str ".") then (splitChar '.' filename).getLastD []
  else []

/-- Embeds `TestSynthesizerAgent._extract_functions_from_patch`: every added or
removed patch line is matched against the language pattern; private names
(leading underscore) are skipped. -/
def extractFunctionsFromPatch (patch ext : Str) : List FunctionInfo :=
  match tsFunctionPatterns.find? (fun p => p.1 = ext) with
  | none => []
  | some pat =>
    (splitLines patch).filterMap fun line =>
      if strStartsWith line (str "+") || strStartsWith line (str "-") then
        let change_type :=
          if strStartsWith line (str "+") then str "added" else str "removed"
        let content := line.drop 1
        match pat.2 content with
        | some function_name =>
          if !function_name.isEmpty &&
             !strStartsWith function_name (str "_") then
            some ⟨function_name, change_type, pyStrip content⟩
          else none
        | none => none
      else none

/-- Embeds `TestSynthesizerAgent._has_numeric_parameters`. -/
def hasNumericParameters (function_line : Str) : Bool :=
  [str "int", str "float", str "number", str "count", str "size",
   str "length", str "index"].any
    (fun hint => strContains (strToLower function_line) hint)

/-- Embeds `TestSynthesizerAgent._has_string_parameters`. -/
def hasStringParameters (function_line : Str) : Bool :=
  [str "str", str "string", str "text", str "name", str "message",
   str "path"].any (fun hint => strContains (strToLower function_line) hint)

/-- Embeds `TestSynthesizerAgent._has_collection_parameters`. -/
def hasCollectionParameters (function_line : Str) : Bool :=
  [str "list", str "array", str "dict", str "map", str "set",
   str "collection"].any
    (fun hint => strContains (strToLower function_line) hint)

/-- Embeds `TestSynthesizerAgent._generate_function_test_suggestions`: always a
positive and a negative case, plus boundary cases gated on signature hints. -/
def generateFunctionTestSuggestions (filename function_name _change_type
    function_line : Str) : List TestSuggestion :=
  [⟨filename, some function_name, str "positive",
    str "Test " ++ function_name ++ str " with valid inputs",
    str "Ensure function works correctly with expected inputs",
    some (str "test_" ++ function_name ++ str "_valid_input()")⟩,
   ⟨filename, some function_name, str "negative",
    str "Test " ++ function_name ++ str " with invalid inputs",
    str "Verify proper error handling for invalid inputs",
    some (str "test_" ++ function_name ++ str "_invalid_input()")⟩] ++
  (if hasNumericParameters function_line then
    [⟨filename, some function_name, str "boundary",
      str "Test " ++ function_name ++ str " with boundary values",
      str "Numeric parameters should be tested with min/max/zero values",
      some (str "test_" ++ function_name ++ str "_boundary_values()")⟩]
   else []) ++
  (if hasStringParameters function_line then
    [⟨filename, some function_name, str "boundary",
      str "Test " ++ function_name ++ str " with empty/null strings",
      str "String parameters should be tested with empty and null values",
      some (str "test_" ++ function_name ++ str "_empty_strings()")⟩]
   else []) ++
  (if hasCollectionParameters function_line then
    [⟨filename, some function_name, str "boundary",
      str "Test " ++ function_name ++ str " with empty collections",
      str "Collection parameters should be tested with empty lists/arrays",
      some (str "test_" ++ function_name ++ str "_empty_collections()")⟩]
   else [])

/-- Embeds `TestSynthesizerAgent._analyze_patch_patterns`: keyword-family triggered
suggestions. -/
def analyzePatchPatterns (filename patch : Str) : List TestSuggestion :=
  let pl := strToLower patch
  (if [str "try:", str "except:", str "catch", str "throw", str "error"].any
      (fun k => strContains pl k) then
    [⟨filename, none, str "negative",
      str "Test error handling and exception cases",
      str "Code contains error handling that should be tested",
      some (str "test_error_handling()")⟩]
   else []) ++
  (if [str "select", str "insert", str "update", str "delete", str "query"].any
      (fun k => strContains pl k) then
    [⟨filename, none, str "integration",
      str "Test database operations with mocked/test database",
      str "Database operations require integration testing",
      some (str "test_database_operations()")⟩]
   else []) ++
  (if [str "request", str "response", str "api", str "http", str "fetch"].any
      (fun k => strContains pl k) then
    [⟨filename, none, str "integration",
      str "Test API interactions with mocked responses",
      str "External API calls should be tested with mocked responses",
      some (str "test_api_interactions()")⟩]
   else []) ++
  (if [str "file", str "read", str "write", str "open", str "save"].any
      (fun k => strContains pl k) then
    [⟨filename, none, str "integration",
      str "Test file operations with temporary files",
      str "File operations should be tested with controlled file system state",
      some (str "test_file_operations()")⟩]
   else []) ++
  (if [str "validate", str "check", str "verify", str "assert"].any
      (fun k => strContains pl k) then
    [⟨filename, none, str "positive",
      str "Test validation logic with various input scenarios",
      str "Validation logic requires comprehensive input testing",
      some (str "test_validation_logic()")⟩]
   else [])

/-- The integration-test stub name of a newly added file:
`filename.replace('.', '_').replace('/', '_')`. -/
def fileStubName (filename : Str) : Str :=
  filename.map fun c => if c = '.' || c = '/' then Char.ofNat 95 else c

/-- Embeds `TestSynthesizerAgent._analyze_file_for_tests`. -/
def analyzeFileForTests (f : PRFileModel) : List TestSuggestion :=
  match f.patch with
  | none => []
  | some patch =>
    if patch.isEmpty then []
    else
      let ext := extOf f.filename
      let functions := extractFunctionsFromPatch patch ext
      let fnSuggestions := functions.flatMap fun info =>
        generateFunctionTestSuggestions f.filename info.name info.change_type
          info.line
      let fileLevel :=
        if statusValue f.status = str "added" then
          [⟨f.filename, none, str "integration",
            str "Integration tests for new file " ++ f.filename,
            str "New files should have comprehensive test coverage",
            some (str "test_" ++ fileStubName f.filename ++
                  str "_integration()")⟩]
        else []
      fnSuggestions ++ fileLevel ++ analyzePatchPatterns f.filename patch

/-- Embeds `TestSynthesizerAgent._is_test_file`. -/
def tsIsTestFile (filename : Str) : Bool :=
  let fl := strToLower filename
  [str "test_", str "_test.", str "tests/", str "spec_", str "_spec.",
   str "__tests__/"].any (fun pattern => strContains fl pattern)

/-- Embeds `TestSynthesizerAgent._is_testable_file`: skip test files, non-code
extensions (a case-sensitive `endswith`) and excluded path patterns. -/
def isTestableFile (filename : Str) : Bool :=
  if tsIsTestFile filename then false
  else if !([str ".py", str ".js", str ".ts", str ".java", str ".go",
             str ".rs", str ".cpp", str ".c"].any
              (fun ext => strEndsWith filename ext)) then false
  else if [str "config", str "settings", str "__init__", str "migrations/",
           str "docs/"].any
            (fun pattern => strContains (strToLower filename) pattern) then
    false
  else true

/-- The deduplication key of `_deduplicate_suggestions`. -/
def suggestionKey (s : TestSuggestion) : Str × Option Str × Str × Str :=
  (s.target_file, s.function_name, s.test_type, s.description)

/-- Embeds `TestSynthesizerAgent._deduplicate_suggestions`: keep the first occurrence
of every key, preserving order. -/
def dedupSuggestions (l : List TestSuggestion) : List TestSuggestion :=
  l.foldl
    (fun acc s =>
      if acc.any (fun t => suggestionKey t = suggestionKey s) then acc
      else acc ++ [s])
    []

/-- The pre-deduplication suggestion list of `TestSynthesizerAgent.run`. -/
def testSuggestionsRaw (ctx : PRContext) : List TestSuggestion :=
  (ctx.files.filter (fun f => isTestableFile f.filename)).flatMap
    analyzeFileForTests

/-- The `try`-block body of `TestSynthesizerAgent.run`: deduplicate, then
truncate to 20 suggestions. -/
def testSynthesizerBody (ctx : PRContext) : AgentPayload :=
  { emptyPayload with
    test_suggestions := some ((dedupSuggestions (testSuggestionsRaw ctx)).take 20) }

/-! ### Reviewer agent (`agents/reviewer.py`) -/

/-- Embeds `ReviewerAgent._has_complex_logic`. -/
def hasComplexLogic (patch : Str) : Bool :=
  if patch.isEmpty then false
  else
    let complexity_indicators :=
      [str "if", str "else", str "elif", str "switch", str "case",
       str "for", str "while", str "foreach",
       str "try", str "catch", str "except",
       str "async", str "await", str "promise"]
    let lines := splitLines patch
    let complex_lines :=
      (lines.filter fun line =>
        complexity_indicators.any
          (fun ind => strContains (strToLower line) ind)).length
    complex_lines > 5 || lines.length > 50

/-- Embeds `ReviewerAgent._is_auth_related`. -/
def rvIsAuthRelated (filename : Str) : Bool :=
  [str "auth", str "login", str "signin", str "permission", str "role",
   str "access", str "security"].any
    (fun pattern => strContains (strToLower filename) pattern)

/-- Embeds `ReviewerAgent._is_config_file`. -/
def rvIsConfigFile (filename : Str) : Bool :=
  [str ".env", str ".ini", str ".conf", str ".config", str "settings",
   str ".yml", str ".yaml"].any
    (fun pattern => strContains (strToLower filename) pattern)

/-- Embeds `ReviewerAgent._is_code_file` (case-sensitive `endswith`). -/
def rvIsCodeFile (filename : Str) : Bool :=
  [str ".py", str ".js", str ".ts", str ".java", str ".go", str ".rs",
   str ".cpp", str ".c", str ".rb", str ".php"].any
    (fun ext => strEndsWith filename ext)

/-- Embeds `ReviewerAgent._is_test_file`. -/
def rvIsTestFile (filename : Str) : Bool :=
  [str "test_", str "_test.", str "tests/", str "spec_", str "_spec.",
   str "__tests__/"].any
    (fun pattern => strContains (strToLower filename) pattern)

/-- Embeds `ReviewerAgent._is_critical_functionality`. -/
def rvIsCriticalFunctionality (filename : Str) : Bool :=
  [str "core", str "main", str "critical", str "essential", str "payment",
   str "auth", str "security"].any
    (fun pattern => strContains (strToLower filename) pattern)

/-- Embeds `ReviewerAgent._is_api_file`. -/
def rvIsApiFile (filename : Str) : Bool :=
  [str "api", str "endpoint", str "route", str "controller", str "handler",
   str "view"].any (fun pattern => strContains (strToLower filename) pattern)

/-- Does the patch of a file exist, is non-empty, and contain one of the
keywords (lower-cased), as in `f.patch and any(k in f.patch.lower() ...)`. -/
def patchHasKeyword (f : PRFileModel) (keywords : List Str) : Bool :=
  match f.patch with
  | none => false
  | some p => !p.isEmpty && keywords.any (fun k => strContains (strToLower p) k)

/-- Embeds `ReviewerAgent._analyze_code_quality`. -/
def analyzeCodeQuality (ctx : PRContext) : List ReviewChecklistItem :=
  let large_files := ctx.files.filter (fun f => f.additions + f.deletions > 300)
  let complex_files := ctx.files.filter fun f =>
    f.additions + f.deletions > 100 && hasComplexLogic (f.patch.getD [])
  let files_with_errors := ctx.files.filter fun f =>
    patchHasKeyword f [str "exception", str "error", str "try", str "catch"]
  (if large_files.length > 0 then
    [⟨str "Code Quality",
      str "Review large changes in " ++ natStr large_files.length ++
      str " file(s) for potential refactoring opportunities",
      str "medium",
      some (joinStr (str ", ") ((large_files.take 3).map (fun f => f.filename)))⟩]
   else []) ++
  (if complex_files.length > 0 then
    [⟨str "Code Quality",
      str "Verify complex logic changes are well-structured and readable",
      str "high",
      some (joinStr (str ", ") ((complex_files.take 2).map (fun f => f.filename)))⟩]
   else []) ++
  (if files_with_errors.length > 0 then
    [⟨str "Code Quality",
      str "Ensure proper error handling and meaningful error messages",
      str "medium", none⟩]
   else []) ++
  (if ctx.files.length > 5 then
    [⟨str "Code Quality",
      str "Check for potential code duplication across multiple files",
      str "low", none⟩]
   else [])

/-- Embeds `ReviewerAgent._analyze_security_considerations`. -/
def analyzeSecurityConsiderations (ctx : PRContext) : List ReviewChecklistItem :=
  let auth_files := ctx.files.filter (fun f => rvIsAuthRelated f.filename)
  let files_with_inputs := ctx.files.filter fun f =>
    patchHasKeyword f [str "input", str "request", str "param", str "form"]
  let db_files := ctx.files.filter fun f =>
    patchHasKeyword f [str "sql", str "query", str "database", str "db"]
  let config_files := ctx.files.filter (fun f => rvIsConfigFile f.filename)
  (if auth_files.length > 0 then
    [⟨str "Security",
      str "Verify authentication and authorization logic is secure and properly tested",
      str "high",
      some (joinStr (str ", ") (auth_files.map (fun f => f.filename)))⟩]
   else []) ++
  (if files_with_inputs.length > 0 then
    [⟨str "Security",
      str "Ensure all user inputs are properly validated and sanitized",
      str "high", none⟩]
   else []) ++
  (if db_files.length > 0 then
    [⟨str "Security",
      str "Review database operations for SQL injection vulnerabilities",
      str "high", none⟩]
   else []) ++
  (if config_files.length > 0 then
    [⟨str "Security",
      str "Review configuration changes for security implications",
      str "medium",
      some (joinStr (str ", ") (config_files.map (fun f => f.filename)))⟩]
   else [])

/-- Embeds `ReviewerAgent._analyze_performance_implications`. -/
def analyzePerformanceImplications (ctx : PRContext) : List ReviewChecklistItem :=
  let files_with_queries := ctx.files.filter fun f =>
    patchHasKeyword f [str "select", str "join", str "query", str "fetch"]
  let files_with_loops := ctx.files.filter fun f =>
    patchHasKeyword f [str "for", str "while", str "foreach", str "map",
                       str "filter"]
  let files_with_api := ctx.files.filter fun f =>
    patchHasKeyword f [str "http", str "request", str "api", str "fetch",
                       str "call"]
  let large_additions := (ctx.files.map (fun f => f.additions)).sum
  (if files_with_queries.length > 0 then
    [⟨str "Performance",
      str "Review database queries for efficiency and proper indexing",
      str "medium", none⟩]
   else []) ++
  (if files_with_loops.length > 0 then
    [⟨str "Performance",
      str "Check loop implementations for performance efficiency",
      str "low", none⟩]
   else []) ++
  (if files_with_api.length > 0 then
    [⟨str "Performance",
      str "Ensure API calls are optimized and have proper timeout/retry logic",
      str "medium", none⟩]
   else []) ++
  (if large_additions > 1000 then
    [⟨str "Performance",
      str "Large code addition (" ++ natStr large_additions ++
      str " lines) - consider performance impact",
      str "low", none⟩]
   else [])

/-- Embeds `ReviewerAgent._analyze_maintainability`. -/
def analyzeMaintainability (ctx : PRContext) : List ReviewChecklistItem :=
  (if !ctx.dependency_files.isEmpty then
    [⟨str "Maintainability",
      str "Review new dependencies for necessity and long-term maintenance",
      str "medium", none⟩]
   else []) ++
  (if ctx.files.length > 10 then
    [⟨str "Maintainability",
      str "Ensure changes maintain good code organization and separation of concerns",
      str "low", none⟩]
   else []) ++
  (if (ctx.files.filter (fun f => rvIsCodeFile f.filename)).length > 3 then
    [⟨str "Maintainability",
      str "Verify complex code sections have appropriate comments and documentation",
      str "low", none⟩]
   else [])

/-- Embeds `ReviewerAgent._analyze_testing_coverage`.  The ratio test
`len(test_files) < len(code_files) / 2` is exact on integers as
`2 * len(test_files) < len(code_files)`. -/
def analyzeTestingCoverage (ctx : PRContext) : List ReviewChecklistItem :=
  let test_files := ctx.files.filter (fun f => rvIsTestFile f.filename)
  let code_files := ctx.files.filter fun f =>
    rvIsCodeFile f.filename && !rvIsTestFile f.filename
  let critical_files := ctx.files.filter
    (fun f => rvIsCriticalFunctionality f.filename)
  (if code_files.length > 0 && test_files.length = 0 then
    [⟨str "Testing",
      str "No test files modified - ensure adequate test coverage for new/changed code",
      str "medium", none⟩]
   else if test_files.length > 0 && 2 * test_files.length < code_files.length then
    [⟨str "Testing",
      str "Consider adding more test coverage for the modified code",
      str "low", none⟩]
   else []) ++
  (if critical_files.length > 0 then
    [⟨str "Testing",
      str "Ensure critical functionality changes have comprehensive test coverage",
      str "high",
      some (joinStr (str ", ") (critical_files.map (fun f => f.filename)))⟩]
   else [])

/-- Embeds `ReviewerAgent._analyze_documentation`. -/
def analyzeDocumentation (ctx : PRContext) : List ReviewChecklistItem :=
  let api_files := ctx.files.filter (fun f => rvIsApiFile f.filename)
  let has_py_def := ctx.files.any fun f =>
    strEndsWith f.filename (str ".py") &&
    (match f.patch with
     | some p => !p.isEmpty && strContains p (str "def ")
     | none => false)
  let readme_changed := ctx.files.any
    (fun f => strContains (strToLower f.filename) (str "readme"))
  (if api_files.length > 0 then
    [⟨str "Documentation",
      str "Update API documentation for any interface changes",
      str "medium",
      some (joinStr (str ", ") (api_files.map (fun f => f.filename)))⟩]
   else []) ++
  (if has_py_def then
    [⟨str "Documentation",
      str "Ensure public functions have appropriate docstrings",
      str "low", none⟩]
   else []) ++
  (if !readme_changed &&
      (ctx.files.filter (fun f => rvIsCodeFile f.filename)).length > 5 then
    [⟨str "Documentation",
      str "Consider updating README or documentation for significant changes",
      str "low", none⟩]
   else [])

/-- Embeds `ReviewerAgent._analyze_breaking_changes`. -/
def analyzeBreakingChanges (ctx : PRContext) : List ReviewChecklistItem :=
  let functions_removed := ctx.files.filterMap fun f =>
    match f.patch with
    | some p =>
      if !p.isEmpty &&
         ([str ".py", str ".js", str ".ts", str ".java"].any
           (fun ext => strEndsWith f.filename ext)) &&
         ((splitLines p).any fun line =>
           strStartsWith line (str "-") &&
           (strContains line (str "def ") ||
            strContains line (str "function ") ||
            strContains line (str "class "))) then
        some f.filename
      else none
    | none => none
  let migration_files := ctx.files.filter fun f =>
    strContains (strToLower f.filename) (str "migration") ||
    strContains (strToLower f.filename) (str ".sql")
  let config_files := ctx.files.filter (fun f => rvIsConfigFile f.filename)
  (if functions_removed.length > 0 then
    [⟨str "Breaking Changes",
      str "Verify removed/modified functions don't break existing functionality",
      str "high", some (joinStr (str ", ") functions_removed)⟩]
   else []) ++
  (if migration_files.length > 0 then
    [⟨str "Breaking Changes",
      str "Review database migrations for backward compatibility",
      str "high",
      some (joinStr (str ", ") (migration_files.map (fun f => f.filename)))⟩]
   else []) ++
  (if config_files.length > 0 then
    [⟨str "Breaking Changes",
      str "Ensure configuration changes maintain backward compatibility",
      str "medium", none⟩]
   else [])

/-- The sort key `{'high': 0, 'medium': 1, 'low': 2}[severity]`. -/
def severityRank (s : Str) : Nat :=
  if s = str "high" then 0 else if s = str "medium" then 1 else 2

/-- Stable insertion behind every item of rank at most the new item's rank. -/
def insertByRank (x : ReviewChecklistItem) :
    List ReviewChecklistItem → List ReviewChecklistItem
  | [] => [x]
  | y :: ys =>
    if severityRank y.severity ≤ severityRank x.severity then
      y :: insertByRank x ys
    else x :: y :: ys

/-- Python's stable `list.sort(key=severityRank)`: a stable ascending sort. -/
def sortBySeverity (l : List ReviewChecklistItem) : List ReviewChecklistItem :=
  l.foldl (fun acc x => insertByRank x acc) []

/-- The `try`-block body of `ReviewerAgent.run`: the seven sub-analyses in
order, stably sorted by severity. -/
def reviewerBody (ctx : PRContext) : AgentPayload :=
  let checklist_items :=
    analyzeCodeQuality ctx ++ analyzeSecurityConsiderations ctx ++
    analyzePerformanceImplications ctx ++ analyzeMaintainability ctx ++
    analyzeTestingCoverage ctx ++ analyzeDocumentation ctx ++
    analyzeBreakingChanges ctx
  { emptyPayload with review_checklist := some (sortBySeverity checklist_items) }

/-! ### Repository scanner agent (`agents/repo_scanner.py`)

Only `_categorize_changes` (the changelog) is embedded; the summary and
complexity flags of `RepoScannerAgent.run` are not needed by any claim. -/

/-- Embeds `RepoScannerAgent._is_test_file`. -/
def rsIsTestFile (filename : Str) : Bool :=
  let fl := strToLower filename
  [str "test_", str "_test.", str "tests/", str "/test/", str ".test.",
   str "spec_", str "_spec.", str "specs/", str "/spec/",
   str ".spec.", str "__tests__/", str "/*.test.*"].any
    (fun pattern => strContains fl pattern)

/-- Embeds `RepoScannerAgent._is_doc_file`. -/
def rsIsDocFile (filename : Str) : Bool :=
  let fl := strToLower filename
  ([str ".md", str ".rst", str ".txt", str ".pdf", str ".doc",
    str ".docx"].any (fun ext => strEndsWith fl ext)) ||
  ([str "docs/", str "doc/", str "documentation/"].any
    (fun d => strContains fl d))

/-- Embeds `RepoScannerAgent._is_code_file`. -/
def rsIsCodeFile (filename : Str) : Bool :=
  let fl := strToLower filename
  [str ".py", str ".js", str ".ts", str ".java", str ".go", str ".rs",
   str ".cpp", str ".c", str ".rb", str ".php", str ".swift", str ".kt",
   str ".scala", str ".cs"].any (fun ext => strEndsWith fl ext)

/-- Embeds `RepoScannerAgent._categorize_changes`: the changelog buckets in
dictionary order, with empty buckets removed.  The file loop calls the
classifiers on the lower-cased filename but records the original one. -/
def categorizeChanges (ctx : PRContext) : List (Str × List Str) :=
  let pr_text := strToLower (ctx.pr_title ++ [' '] ++ ctx.pr_body.getD [])
  let features :=
    (if [str "add", str "implement", str "feature", str "new"].any
        (fun k => strContains pr_text k) then
      [str "Added new functionality based on PR title: " ++ ctx.pr_title]
     else []) ++
    ctx.files.filterMap fun f =>
      let fl := strToLower f.filename
      if !rsIsTestFile fl && !rsIsDocFile fl && f.status = .added &&
         rsIsCodeFile fl then
        some (str "Added new file: " ++ f.filename)
      else none
  let fixes :=
    if [str "fix", str "bug", str "issue", str "resolve"].any
        (fun k => strContains pr_text k) then
      [str "Fixed issue: " ++ ctx.pr_title]
    else []
  let refactors :=
    if [str "refactor", str "cleanup", str "reorganize", str "improve"].any
        (fun k => strContains pr_text k) then
      [str "Code refactoring: " ++ ctx.pr_title]
    else []
  let docs := ctx.files.filterMap fun f =>
    let fl := strToLower f.filename
    if !rsIsTestFile fl && rsIsDocFile fl then
      if f.status = .added then some (str "Added documentation: " ++ f.filename)
      else if f.additions > 0 then
        some (str "Updated documentation: " ++ f.filename)
      else none
    else none
  let tests := ctx.files.filterMap fun f =>
    let fl := strToLower f.filename
    if rsIsTestFile fl then
      if f.status = .added then some (str "Added test file: " ++ f.filename)
      else if f.additions > f.deletions then
        some (str "Enhanced tests in: " ++ f.filename)
      else none
    else none
  ([(str "features", features), (str "fixes", fixes),
    (str "refactors", refactors), (str "docs", docs),
    (str "tests", tests)]).filter (fun kv => !kv.2.isEmpty)

/-! ### Concrete change-set contexts used by the theorems -/

/-- A change set whose only file is a database migration (no patch, no
manifests): per the spec it should gain the `+8` database-file bonus. -/
def ctxDbFile : PRContext :=
  ⟨str "run-db", str "octo/repo", 8, str "headsha", str "basesha",
   [⟨str "migrations/0001_init.sql", .added, 10, 0, 10, none⟩],
   str "", [(str "sql", 10)], [],
   str "Add migration", none, str "bob", []⟩

/-- The end-to-end context of the spec: one added file `auth/login.py`
(120 additions, 0 deletions), whose patch holds a `def login(` line and matches no secret
pattern. -/
def ctxLogin : PRContext :=
  ⟨str "run-login", str "octo/repo", 7, str "headsha", str "basesha",
   [⟨str "auth/login.py", .added, 120, 0, 120,
     some (str "@@ -0,0 +1,2 @@\n+def login(user):\n+    return True")⟩],
   str "", [(str "py", 120)], [],
   str "Add login feature", none, str "alice", []⟩

/-- A context whose `package.json` patch replaces a pinned `lodash` version:
a removed line and an added line for the same package name. -/
def ctxPackageJson : PRContext :=
  ⟨str "run-pkg", str "octo/repo", 9, str "headsha", str "basesha",
   [⟨str "package.json", .modified, 1, 1, 2,
     some (str "@@ -5,1 +5,1 @@\n-    \"lodash\": \"4.17.20\",\n+    \"lodash\": \"4.17.21\",")⟩],
   str "", [(str "json", 2)], [(str "package.json", str "ignored")],
   str "Bump lodash", none, str "carol", []⟩

/-- A context with one modified source file whose patch adds `def add(a, b):`,
used to witness the test-suggestion theorem. -/
def ctxCalc : PRContext :=
  ⟨str "run-calc", str "octo/repo", 10, str "headsha", str "basesha",
   [⟨str "calc.py", .modified, 1, 0, 1, some (str "+def add(a, b):")⟩],
   str "", [(str "py", 1)], [],
   str "Add adder", none, str "dave", []⟩

/-! ### Shared helper lemmas -/

/-- The clamp of the risk scorer keeps every result inside `[0, 100]`. -/
theorem calculateRiskScore_bounds (f : RiskFactors) :
    0 ≤ calculateRiskScore f ∧ calculateRiskScore f ≤ 100 := by
  unfold calculateRiskScore
  exact ⟨le_min (by norm_num) (le_max_left 0 _), min_le_left _ _⟩

/-! ### C1 — risk scorer range and extremes -/

/-- C1: the risk scorer returns an integer in `[0, 100]` for every
`RiskFactors` input; the all-zero input scores `0`, and the input satisfying
every factor condition (raw sum `115`) scores exactly `100`, clamped. -/
theorem riskScorer_bounded_zero_and_clamped :
    (∀ f : RiskFactors, 0 ≤ calculateRiskScore f ∧ calculateRiskScore f ≤ 100) ∧
    calculateRiskScore zeroRiskFactors = 0 ∧
    calculateRiskScore maxedRiskFactors = 100 :=
  ⟨calculateRiskScore_bounds, by decide, by decide⟩

/-! ### C2 — per-stage failure isolation -/

/-- C2: a stage whose body raises is absorbed by its own `except` branch:
the stage still returns a result carrying exactly one warning, and the merged
report's fields owned by the other three stages are read from their payloads
unchanged.  The final conjuncts state, for each of the four agents, that every
internal outcome yields a returned result (never a propagated exception) whose
warning count is `1` exactly on the failure path. -/
theorem stage_failure_isolated_one_warning :
    ∀ (ctx : PRContext) (e : Str) (p1 p2 p3 p4 : AgentPayload),
    ((mergePRAnalysis ctx (repoScannerRunWith (.ok p1))
        (riskSecurityRunWith ctx (.error e))
        (testSynthesizerRunWith (.ok p3)) (reviewerRunWith (.ok p4))).summary =
        p1.summary.getD [] ∧
     (mergePRAnalysis ctx (repoScannerRunWith (.ok p1))
        (riskSecurityRunWith ctx (.error e))
        (testSynthesizerRunWith (.ok p3)) (reviewerRunWith (.ok p4))).changelog =
        p1.changelog.getD [] ∧
     (mergePRAnalysis ctx (repoScannerRunWith (.ok p1))
        (riskSecurityRunWith ctx (.error e))
        (testSynthesizerRunWith (.ok p3))
        (reviewerRunWith (.ok p4))).complexity_flags =
        p1.complexity_flags.getD [] ∧
     (mergePRAnalysis ctx (repoScannerRunWith (.ok p1))
        (riskSecurityRunWith ctx (.error e))
        (testSynthesizerRunWith (.ok p3))
        (reviewerRunWith (.ok p4))).test_suggestions =
        p3.test_suggestions.getD [] ∧
     (mergePRAnalysis ctx (repoScannerRunWith (.ok p1))
        (riskSecurityRunWith ctx (.error e))
        (testSynthesizerRunWith (.ok p3))
        (reviewerRunWith (.ok p4))).review_checklist =
        p4.review_checklist.getD []) ∧
    (riskSecurityRunWith ctx (.error e)).warnings =
      [str "Error during security analysis: " ++ e] ∧
    ((mergePRAnalysis ctx (repoScannerRunWith (.error e))
        (riskSecurityRunWith ctx (.ok p2))
        (testSynthesizerRunWith (.ok p3))
        (reviewerRunWith (.ok p4))).risk_score = p2.risk_score.getD 0 ∧
     (mergePRAnalysis ctx (repoScannerRunWith (.ok p1))
        (riskSecurityRunWith ctx (.ok p2))
        (testSynthesizerRunWith (.error e))
        (reviewerRunWith (.ok p4))).review_checklist =
        p4.review_checklist.getD [] ∧
     (mergePRAnalysis ctx (repoScannerRunWith (.ok p1))
        (riskSecurityRunWith ctx (.ok p2))
        (testSynthesizerRunWith (.ok p3))
        (reviewerRunWith (.error e))).test_suggestions =
        p3.test_suggestions.getD []) ∧
    (∀ a : Except Str AgentPayload,
      (riskSecurityRunWith ctx a).warnings.length =
        match a with | .ok _ => 0 | .error _ => 1) ∧
    (∀ a : Except Str AgentPayload,
      (repoScannerRunWith a).warnings.length =
        match a with | .ok _ => 0 | .error _ => 1) ∧
    (∀ a : Except Str AgentPayload,
      (testSynthesizerRunWith a).warnings.length =
        match a with | .ok _ => 0 | .error _ => 1) ∧
    (∀ a : Except Str AgentPayload,
      (reviewerRunWith a).warnings.length =
        match a with | .ok _ => 0 | .error _ => 1) := by
  intro ctx e p1 p2 p3 p4
  refine ⟨⟨rfl, rfl, rfl, rfl, rfl⟩, rfl, ⟨rfl, rfl, rfl⟩, ?_, ?_, ?_, ?_⟩ <;>
    · intro a; cases a <;> rfl

/-! ### C3 — factors the Risk & Security stage actually derives -/

/-- C3 counterexample: a change set containing exactly one database/migration
file receives a risk score of `0` from the Risk & Security stage, not the `+8`
the claim requires, because the stage never supplies the
`database_files_changed` factor. -/
theorem dbFile_scores_zero_not_eight :
    isDatabaseFile (str "migrations/0001_init.sql") = true ∧
    (riskSecurityBody ctxDbFile).risk_score = some 0 ∧
    some (0 : Int) ≠ some (8 : Int) := by
  refine ⟨by decide, by decide, by decide⟩

/-- C3 amended: the stage derives exactly five factors (secrets count, total
additions, dependency changes, security-file count, large-file count) and
invokes the scorer with every other factor key absent, hence `0`; so the
database, security-config, deployment, binary and large-deletion bonuses never
contribute to a pipeline risk score, and the migration-only change set scores
`0`. -/
theorem riskSecurity_derives_five_factors_only :
    (∀ ctx : PRContext,
      (riskSecurityBody ctx).risk_score =
        some (calculateRiskScore
          (riskSecurityFactors ctx (scanForSecrets ctx)
            (analyzeDependencyChanges ctx)))) ∧
    (∀ (ctx : PRContext) (secrets : List SecretDetection)
       (deps : List DependencyChange),
      (riskSecurityFactors ctx secrets deps).total_files = 0 ∧
      (riskSecurityFactors ctx secrets deps).binary_files_changed = 0 ∧
      (riskSecurityFactors ctx secrets deps).database_files_changed = 0 ∧
      (riskSecurityFactors ctx secrets deps).security_config_files_changed = 0 ∧
      (riskSecurityFactors ctx secrets deps).deployment_files_changed = 0 ∧
      (riskSecurityFactors ctx secrets deps).large_deletions = 0) ∧
    (isDatabaseFile (str "migrations/0001_init.sql") = true ∧
     (riskSecurityBody ctxDbFile).risk_score = some 0) := by
  refine ⟨fun ctx => rfl, fun ctx s d => ⟨rfl, rfl, rfl, rfl, rfl, rfl⟩,
    by decide, by decide⟩

/-! ### C6 — placeholder markers and line skipping -/

/-- C6: the marker list is compared against the lower-cased line, so the
upper-case marker `YOUR_API_KEY` never matches: a line containing it (with a
16-character key body) is not skipped and produces a Generic API Key finding,
contradicting the claim, while the claim's own example
`api_key = "YOUR_API_KEY"` still yields zero findings because the quoted
12-character value is shorter than the pattern's 16-character minimum. -/
theorem upper_case_marker_never_skips :
    strContains (strToLower (str "api_key = YOUR_API_KEY_1234567"))
      (strToLower (str "YOUR_API_KEY")) = true ∧
    isSafeLine (str "api_key = YOUR_API_KEY_1234567") (str "config.py") = false ∧
    scanContent (str "api_key = YOUR_API_KEY_1234567") (str "config.py") =
      [⟨str "Generic API Key", str "config.py", 1, str "medium"⟩] ∧
    scanContent (str "api_key = \"YOUR_API_KEY\"") (str "config.py") = [] := by
  refine ⟨by decide, by decide, by decide, by decide⟩

/-! ### C7 — the end-to-end login change set -/

/-- C7 counterexample: `auth/login.py` is not matched by
`_is_security_file` (whose pattern list has no `auth` or `login` entry), so
the Risk & Security stage scores the login change set `0`, without the `+10`
security-sensitive-file bonus the claim requires. -/
theorem login_change_set_scores_zero :
    isSecurityFile (str "auth/login.py") = false ∧
    (riskSecurityBody ctxLogin).risk_score = some 0 ∧
    some (0 : Int) ≠ some (10 : Int) := by
  refine ⟨by decide, by decide, by decide⟩

/-- C7 amended: on the login change set the pipeline produces a changelog
whose only bucket is `features` (with two entries), a reviewer checklist
containing a high-severity `Security` item referencing `auth/login.py`, no
secret findings, a positive test suggestion for function `login` — but a risk
score of `0`: no security-sensitive-file bonus applies because
`_is_security_file` does not recognise `auth/` or `login` names (those
patterns only feed the narrative via `_is_auth_file`). -/
theorem login_change_set_report :
    ∀ repo_scanner_result : AgentResult,
    categorizeChanges ctxLogin =
      [(str "features",
        [str "Added new functionality based on PR title: Add login feature",
         str "Added new file: auth/login.py"])] ∧
    (∃ item ∈ (mergePRAnalysis ctxLogin repo_scanner_result
        (riskSecurityRun ctxLogin)
        (testSynthesizerRunWith (.ok (testSynthesizerBody ctxLogin)))
        (reviewerRunWith (.ok (reviewerBody ctxLogin)))).review_checklist,
      item.category = str "Security" ∧ item.severity = str "high" ∧
      item.line_reference = some (str "auth/login.py")) ∧
    (mergePRAnalysis ctxLogin repo_scanner_result (riskSecurityRun ctxLogin)
        (testSynthesizerRunWith (.ok (testSynthesizerBody ctxLogin)))
        (reviewerRunWith (.ok (reviewerBody ctxLogin)))).risk_score = 0 ∧
    (mergePRAnalysis ctxLogin repo_scanner_result (riskSecurityRun ctxLogin)
        (testSynthesizerRunWith (.ok (testSynthesizerBody ctxLogin)))
        (reviewerRunWith (.ok (reviewerBody ctxLogin)))).secrets_detected = [] ∧
    (∃ s ∈ (mergePRAnalysis ctxLogin repo_scanner_result
        (riskSecurityRun ctxLogin)
        (testSynthesizerRunWith (.ok (testSynthesizerBody ctxLogin)))
        (reviewerRunWith (.ok (reviewerBody ctxLogin)))).test_suggestions,
      s.function_name = some (str "login") ∧ s.test_type = str "positive") ∧
    isSecurityFile (str "auth/login.py") = false := by
  intro repo_scanner_result
  refine ⟨by decide, ?_, ?_, ?_, ?_, by decide⟩
  · exact (by decide :
      ∃ item ∈ (reviewerBody ctxLogin).review_checklist.getD [],
        item.category = str "Security" ∧ item.severity = str "high" ∧
        item.line_reference = some (str "auth/login.py"))
  · exact (by decide :
      (riskSecurityBody ctxLogin).risk_score.getD 0 = 0)
  · exact (by decide :
      (riskSecurityBody ctxLogin).secrets_detected.getD [] = [])
  · exact (by decide :
      ∃ s ∈ (testSynthesizerBody ctxLogin).test_suggestions.getD [],
        s.function_name = some (str "login") ∧ s.test_type = str "positive")

/-! ### C5 — destination line numbering of `scan_diff` -/

/-- C5: the `scan_diff` loop resets its running destination counter to `c-1`
at a hunk header whose first `+number` is `c`, increments it on every added or
context line, never increments it on a pure deletion line, scans only added
lines — and on the concrete diff of the spec it reports exactly one finding
for `config.py` at destination line `10` with severity `medium`. -/
theorem scanDiff_line_numbering :
    scanDiff (str "@@ -10,0 +10,3 @@\n+password = \"Sup3rSecret!\"")
        (str "config.py") =
      [⟨str "Password", str "config.py", 10, str "medium"⟩] ∧
    (∀ (filename hdr : Str) (rest : List Str) (n : Int) (c : Nat),
      strStartsWith hdr (str "@@") = true → findPlusNum hdr = some c →
      scanDiffGo filename (hdr :: rest) n =
        scanDiffGo filename rest ((c : Int) - 1)) ∧
    (∀ (filename line : Str) (rest : List Str) (n : Int),
      strStartsWith line (str "@@") = false →
      strStartsWith line (str "+") = false →
      strStartsWith line (str "-") = false →
      scanDiffGo filename (line :: rest) n =
        scanDiffGo filename rest (n + 1)) ∧
    (∀ (filename line : Str) (rest : List Str) (n : Int),
      strStartsWith line (str "@@") = false →
      strStartsWith line (str "+") = true →
      strStartsWith line (str "+++") = false →
      scanDiffGo filename (line :: rest) n =
        scanLineForSecrets filename (line.drop 1) (n + 1) ++
          scanDiffGo filename rest (n + 1)) ∧
    (∀ (filename line : Str) (rest : List Str) (n : Int),
      strStartsWith line (str "@@") = false →
      strStartsWith line (str "-") = true →
      scanDiffGo filename (line :: rest) n = scanDiffGo filename rest n) := by
  refine ⟨by decide, ?_, ?_, ?_, ?_⟩
  · intro filename hdr rest n c hAt hPlus
    simp [scanDiffGo, hAt, hPlus]
  · intro filename line rest n hAt hPlusStart hMinus
    simp [scanDiffGo, hAt, hPlusStart, hMinus]
  · intro filename line rest n hAt hPlusStart hTriple
    simp [scanDiffGo, hAt, hPlusStart, hTriple]
  · intro filename line rest n hAt hMinus
    have hPlusStart : strStartsWith line (str "+") = false := by
      cases line with
      | nil => simp [strStartsWith, str, List.isPrefixOf] at hMinus
      | cons c rest' =>
        simp only [strStartsWith, str, List.isPrefixOf, Bool.and_eq_true,
          beq_iff_eq] at hMinus ⊢
        rcases hMinus with ⟨hc, -⟩
        subst hc
        decide
    simp [scanDiffGo, hAt, hPlusStart, hMinus]

/-- C5 witness: the general counter equations applied at concrete lines. -/
theorem scanDiff_line_numbering_witness :
    scanDiffGo (str "a.py") [str "@@ -3,0 +7,2 @@"] 0 =
      scanDiffGo (str "a.py") [] ((7 : Int) - 1) ∧
    scanDiffGo (str "a.py") [str " context"] 4 = scanDiffGo (str "a.py") [] 5 ∧
    scanDiffGo (str "a.py") [str "+x = 1"] 4 =
      scanLineForSecrets (str "a.py") ((str "+x = 1").drop 1) 5 ++
        scanDiffGo (str "a.py") [] 5 ∧
    scanDiffGo (str "a.py") [str "-x = 1"] 4 = scanDiffGo (str "a.py") [] 4 :=
  ⟨scanDiff_line_numbering.2.1 (str "a.py") (str "@@ -3,0 +7,2 @@") [] 0 7
      (by decide) (by decide),
   scanDiff_line_numbering.2.2.1 (str "a.py") (str " context") [] 4
      (by decide) (by decide) (by decide),
   scanDiff_line_numbering.2.2.2.1 (str "a.py") (str "+x = 1") [] 4
      (by decide) (by decide) (by decide),
   scanDiff_line_numbering.2.2.2.2 (str "a.py") (str "-x = 1") [] 4
      (by decide) (by decide)⟩

/-! ### C9 — numeric version comparison -/

/-- Comparing two equal runs of zeros gives `false`. -/
theorem pyListGt_replicate_zero (k : Nat) :
    pyListGt (List.replicate k 0) (List.replicate k 0) = false := by
  induction k with
  | zero => rfl
  | succ k ih => simpa [pyListGt, List.replicate_succ] using ih

/-- Appending the same run of zeros to two equal-length lists does not change
the Python list comparison. -/
theorem pyListGt_append_replicate (a b : List Nat) (h : a.length = b.length)
    (k : Nat) :
    pyListGt (a ++ List.replicate k 0) (b ++ List.replicate k 0) =
      pyListGt a b := by
  induction a generalizing b with
  | nil =>
    cases b with
    | nil => simpa [pyListGt] using pyListGt_replicate_zero k
    | cons y ys => simp at h
  | cons x xs ih =>
    cases b with
    | nil => simp at h
    | cons y ys =>
      simp only [List.length_cons, Nat.succ.injEq] at h
      simp only [List.cons_append, pyListGt, List.append_eq]
      rw [ih ys h]

/-- Padding length. -/
theorem padTo_length (l : List Nat) (m : Nat) (h : l.length ≤ m) :
    (padTo l m).length = m := by
  simp [padTo]
  omega

/-- A trailing zero is absorbed into the padding. -/
theorem padTo_append_zero (l : List Nat) (m : Nat) (h : l.length < m) :
    padTo (l ++ [0]) m = padTo l m := by
  unfold padTo
  rw [List.append_assoc]
  congr 1
  have hlen : m - l.length = (m - (l ++ [0]).length) + 1 := by
    simp only [List.length_append, List.length_cons, List.length_nil]
    omega
  rw [hlen, List.replicate_succ, List.singleton_append]

/-- Padding further just appends more zeros. -/
theorem padTo_add (l : List Nat) (m k : Nat) (h : l.length ≤ m) :
    padTo l (m + k) = padTo l m ++ List.replicate k 0 := by
  unfold padTo
  rw [List.append_assoc, ← List.replicate_add]
  have : m + k - l.length = m - l.length + k := by omega
  rw [this]

/-- The comparison of zero-padded component lists is invariant under padding
both sides to any common length at least both lengths. -/
theorem pyListGt_pad_stable (a b : List Nat) (m m' : Nat)
    (ha : a.length ≤ m) (hb : b.length ≤ m) (hm : m ≤ m') :
    pyListGt (padTo a m') (padTo b m') = pyListGt (padTo a m) (padTo b m) := by
  have h1 : padTo a m' = padTo a m ++ List.replicate (m' - m) 0 := by
    have := padTo_add a m (m' - m) ha
    rwa [Nat.add_sub_cancel' hm] at this
  have h2 : padTo b m' = padTo b m ++ List.replicate (m' - m) 0 := by
    have := padTo_add b m (m' - m) hb
    rwa [Nat.add_sub_cancel' hm] at this
  rw [h1, h2, pyListGt_append_replicate _ _ (by rw [padTo_length a m ha, padTo_length b m hb])]

/-- Appending a zero component on the left does not change the classification. -/
theorem classifyComponents_append_zero_left (o n : List Nat) :
    classifyComponents (o ++ [0]) n = classifyComponents o n := by
  simp only [classifyComponents]
  have hlen : (o ++ [0]).length = o.length + 1 := by simp
  have hm : max o.length n.length ≤ max (o.length + 1) n.length := by omega
  have ho : o.length < max (o.length + 1) n.length := by omega
  rw [hlen]
  rw [padTo_append_zero o _ ho]
  rw [pyListGt_pad_stable n o (max o.length n.length)
        (max (o.length + 1) n.length) (by omega) (by omega) hm,
      pyListGt_pad_stable o n (max o.length n.length)
        (max (o.length + 1) n.length) (by omega) (by omega) hm]

/-- Appending a zero component on the right does not change the
classification. -/
theorem classifyComponents_append_zero_right (o n : List Nat) :
    classifyComponents o (n ++ [0]) = classifyComponents o n := by
  simp only [classifyComponents]
  have hlen : (n ++ [0]).length = n.length + 1 := by simp
  have hm : max o.length n.length ≤ max o.length (n.length + 1) := by omega
  have hn : n.length < max o.length (n.length + 1) := by omega
  rw [hlen]
  rw [padTo_append_zero n _ hn]
  rw [pyListGt_pad_stable n o (max o.length n.length)
        (max o.length (n.length + 1)) (by omega) (by omega) hm,
      pyListGt_pad_stable o n (max o.length n.length)
        (max o.length (n.length + 1)) (by omega) (by omega) hm]

/-- C9: version-change classification is numeric (old `1.9.0` against new
`1.10.0` is `upgraded`, where a lexical string comparison would say
otherwise), and missing trailing components behave exactly like explicit `0`
components on either side. -/
theorem version_comparison_numeric :
    determineVersionChangeType (str "1.9.0") (str "1.10.0") = str "upgraded" ∧
    versionComponents (str "1.10.0") = [1, 10, 0] ∧
    versionComponents (str "1.9.0") = [1, 9, 0] ∧
    (∀ o n : List Nat,
      classifyComponents (o ++ [0]) n = classifyComponents o n ∧
      classifyComponents o (n ++ [0]) = classifyComponents o n) :=
  ⟨by decide, by decide, by decide,
   fun o n => ⟨classifyComponents_append_zero_left o n,
               classifyComponents_append_zero_right o n⟩⟩

/-! ### C10 — the reported risk score is always in range -/

/-- C10: on every execution path of the Risk & Security stage the merged
report's risk score lies in `[0, 100]`: the normal path is the clamped scorer
output, the internal-failure fallback computes
`min(100, 5 * file_count + additions / 100)`, and a payload with no
`risk_score` key merges as the default `0`. -/
theorem merged_risk_score_in_range :
    ∀ (ctx : PRContext) (r1 r3 r4 : AgentResult),
    (0 ≤ (mergePRAnalysis ctx r1 (riskSecurityRun ctx) r3 r4).risk_score ∧
     (mergePRAnalysis ctx r1 (riskSecurityRun ctx) r3 r4).risk_score ≤ 100) ∧
    (∀ e : Str,
      (mergePRAnalysis ctx r1 (riskSecurityRunWith ctx (.error e)) r3 r4).risk_score =
        Int.ofNat (riskSecurityBasicRisk ctx) ∧
      0 ≤ (mergePRAnalysis ctx r1 (riskSecurityRunWith ctx (.error e)) r3 r4).risk_score ∧
      (mergePRAnalysis ctx r1 (riskSecurityRunWith ctx (.error e)) r3 r4).risk_score ≤ 100) ∧
    (∀ (name : Str) (warnings : List Str),
      (mergePRAnalysis ctx r1 ⟨name, emptyPayload, warnings⟩ r3 r4).risk_score = 0) := by
  intro ctx r1 r3 r4
  refine ⟨?_, ?_, fun name warnings => rfl⟩
  · have hb := calculateRiskScore_bounds
      (riskSecurityFactors ctx (scanForSecrets ctx) (analyzeDependencyChanges ctx))
    exact hb
  · intro e
    refine ⟨rfl, ?_, ?_⟩
    · exact Int.ofNat_nonneg _
    · have h : riskSecurityBasicRisk ctx ≤ 100 := Nat.min_le_left _ _
      have : (mergePRAnalysis ctx r1 (riskSecurityRunWith ctx (.error e)) r3 r4).risk_score =
          Int.ofNat (riskSecurityBasicRisk ctx) := rfl
      rw [this, Int.ofNat_eq_natCast]
      exact_mod_cast h

/-! ### C8 — positive and negative suggestions per extracted function -/

/-- An empty patch yields no extracted functions. -/
theorem extractFunctionsFromPatch_nil (ext : Str) :
    extractFunctionsFromPatch [] ext = [] := by
  unfold extractFunctionsFromPatch
  cases h : tsFunctionPatterns.find? (fun p => p.1 = ext) with
  | none => rfl
  | some pat =>
    simp [splitLines, splitChar, strStartsWith, str, List.isPrefixOf]

/-- C8: for every file accepted by the test synthesizer, every function
extracted from the added or removed lines of its patch contributes both a
positive-case and a negative-case suggestion to the pre-deduplication,
pre-truncation suggestion list of the stage. -/
theorem extracted_function_yields_positive_and_negative :
    ∀ (ctx : PRContext) (f : PRFileModel) (patch : Str) (info : FunctionInfo),
    f ∈ ctx.files → isTestableFile f.filename = true → f.patch = some patch →
    info ∈ extractFunctionsFromPatch patch (extOf f.filename) →
    (∃ s ∈ testSuggestionsRaw ctx,
      s.target_file = f.filename ∧ s.function_name = some info.name ∧
      s.test_type = str "positive") ∧
    (∃ s ∈ testSuggestionsRaw ctx,
      s.target_file = f.filename ∧ s.function_name = some info.name ∧
      s.test_type = str "negative") := by
  intro ctx f patch info hf htestable hpatch hinfo
  have hne : patch.isEmpty = false := by
    cases hp : patch.isEmpty with
    | false => rfl
    | true =>
      exfalso
      rw [List.isEmpty_iff.mp hp, extractFunctionsFromPatch_nil] at hinfo
      exact absurd hinfo (List.not_mem_nil _)
  have hmemAnalyze : ∀ s : TestSuggestion,
      s ∈ generateFunctionTestSuggestions f.filename info.name info.change_type
            info.line →
      s ∈ testSuggestionsRaw ctx := by
    intro s hs
    refine List.mem_flatMap.mpr ⟨f, List.mem_filter.mpr ⟨hf, htestable⟩, ?_⟩
    simp only [analyzeFileForTests, hpatch, hne, Bool.false_eq_true, if_false]
    exact List.mem_append_left _
      (List.mem_append_left _ (List.mem_flatMap.mpr ⟨info, hinfo, hs⟩))
  constructor
  · refine ⟨⟨f.filename, some info.name, str "positive",
      str "Test " ++ info.name ++ str " with valid inputs",
      str "Ensure function works correctly with expected inputs",
      some (str "test_" ++ info.name ++ str "_valid_input()")⟩,
      hmemAnalyze _ ?_, rfl, rfl, rfl⟩
    simp only [generateFunctionTestSuggestions]
    exact List.mem_append_left _ (List.mem_cons_self _ _)
  · refine ⟨⟨f.filename, some info.name, str "negative",
      str "Test " ++ info.name ++ str " with invalid inputs",
      str "Verify proper error handling for invalid inputs",
      some (str "test_" ++ info.name ++ str "_invalid_input()")⟩,
      hmemAnalyze _ ?_, rfl, rfl, rfl⟩
    simp only [generateFunctionTestSuggestions]
    exact List.mem_append_left _
      (List.mem_cons_of_mem _ (List.mem_cons_self _ _))

/-- C8 witness: the modified file `calc.py` with patch line
`+def add(a, b):` yields both a positive and a negative suggestion for
`add`. -/
theorem extracted_function_witness :
    (∃ s ∈ testSuggestionsRaw ctxCalc,
      s.target_file = str "calc.py" ∧ s.function_name = some (str "add") ∧
      s.test_type = str "positive") ∧
    (∃ s ∈ testSuggestionsRaw ctxCalc,
      s.target_file = str "calc.py" ∧ s.function_name = some (str "add") ∧
      s.test_type = str "negative") :=
  extracted_function_yields_positive_and_negative ctxCalc
    ⟨str "calc.py", .modified, 1, 0, 1, some (str "+def add(a, b):")⟩
    (str "+def add(a, b):") ⟨str "add", str "added", str "def add(a, b):"⟩
    (by decide) (by decide) rfl (by decide)

/-! ### C4 — what the four manifest handlers actually classify -/

/-- A successful dictionary lookup means the key is among the map's keys. -/
theorem dictGet_some_mem_keys {d : List (Str × Str)} {k v : Str}
    (h : dictGet d k = some v) : k ∈ d.map (fun kv => kv.1) := by
  unfold dictGet at h
  cases hf : d.find? (fun kv => kv.1 = k) with
  | none => rw [hf] at h; exact absurd h (by simp)
  | some kv =>
    have hkv : kv ∈ d := List.mem_of_find?_eq_some hf
    have hp : kv.1 = k := by
      have hp0 := List.find?_some hf
      simpa using hp0
    exact List.mem_map.mpr ⟨kv, hkv, hp⟩

/-- A failed dictionary lookup means the key is absent from the map's keys. -/
theorem dictGet_none_not_mem {d : List (Str × Str)} {k : Str}
    (h : dictGet d k = none) : k ∉ d.map (fun kv => kv.1) := by
  unfold dictGet at h
  have hf : d.find? (fun kv => kv.1 = k) = none := by
    cases hf : d.find? (fun kv => kv.1 = k) with
    | none => rfl
    | some kv => rw [hf] at h; exact absurd h (by simp)
  intro hk
  obtain ⟨kv, hkv, he⟩ := List.mem_map.mp hk
  exact absurd (by simp [he]) (List.find?_eq_none.mp hf kv hkv)

/-- C4 counterexample: a `package.json` patch that removes
`"lodash": "4.17.20"` and adds `"lodash": "4.17.21"` — a version change per
the claim — is reported by the handler as change-type `added` with no old
version, because the structured-manifest handler never parses removed
lines. -/
theorem packageJson_version_bump_reported_added :
    analyzeDependencyFile (str "package.json") (str "ignored") ctxPackageJson =
      [⟨str "lodash", none, some (str "4.17.21"), str "added", str "high"⟩] ∧
    str "added" ≠ str "upgraded" :=
  ⟨by decide, by decide⟩

/-- C4 amended: only the plain-text requirements handler parses both the
added and the removed patch lines into name-to-version maps and classifies a
name present in both as a version change, a name only in the added map as
`added`, and a name only in the removed map as `removed`; the structured
package manifest, TOML and module-list handlers examine only added lines and
classify every extracted entry as `added` with no old version. -/
theorem manifest_handlers_classification :
    (∀ (added removed : List (Str × Str)) (p oldV newV : Str),
      dictGet added p = some newV → dictGet removed p = some oldV →
      ∃ c ∈ requirementsChangesFromMaps added removed,
        c.package = p ∧ c.old_version = some oldV ∧ c.new_version = some newV ∧
        c.change_type = determineVersionChangeType oldV newV) ∧
    (∀ (added removed : List (Str × Str)) (p newV : Str),
      dictGet added p = some newV → dictGet removed p = none →
      ∃ c ∈ requirementsChangesFromMaps added removed,
        c.package = p ∧ c.old_version = none ∧ c.new_version = some newV ∧
        c.change_type = str "added") ∧
    (∀ (added removed : List (Str × Str)) (p oldV : Str),
      dictGet added p = none → dictGet removed p = some oldV →
      ∃ c ∈ requirementsChangesFromMaps added removed,
        c.package = p ∧ c.old_version = some oldV ∧ c.new_version = none ∧
        c.change_type = str "removed") ∧
    (∀ (filename content : Str) (ctx : PRContext) (c : DependencyChange),
      c ∈ analyzePackageJson filename content ctx →
      c.change_type = str "added" ∧ c.old_version = none) ∧
    (∀ (filename content : Str) (ctx : PRContext) (c : DependencyChange),
      c ∈ analyzePythonPipfile filename content ctx →
      c.change_type = str "added" ∧ c.old_version = none) ∧
    (∀ (filename content : Str) (ctx : PRContext) (c : DependencyChange),
      c ∈ analyzeGoMod filename content ctx →
      c.change_type = str "added" ∧ c.old_version = none) := by
  refine ⟨?_, ?_, ?_, ?_, ?_, ?_⟩
  · intro added removed p oldV newV hA hR
    have hp : p ∈ added.map (fun kv => kv.1) := dictGet_some_mem_keys hA
    have hc : requirementChangeFor removed added p =
        [⟨p, some oldV, some newV, determineVersionChangeType oldV newV,
          assessPackageRisk p (determineVersionChangeType oldV newV)⟩] := by
      simp [requirementChangeFor, hA, hR]
    simp only [requirementsChangesFromMaps]
    exact ⟨_, List.mem_flatMap.mpr ⟨p, List.mem_append_left _ hp,
      by rw [hc]; exact List.mem_cons_self _ _⟩, rfl, rfl, rfl, rfl⟩
  · intro added removed p newV hA hR
    have hp : p ∈ added.map (fun kv => kv.1) := dictGet_some_mem_keys hA
    have hc : requirementChangeFor removed added p =
        [⟨p, none, some newV, str "added",
          assessPackageRisk p (str "added")⟩] := by
      simp [requirementChangeFor, hA, hR]
    simp only [requirementsChangesFromMaps]
    exact ⟨_, List.mem_flatMap.mpr ⟨p, List.mem_append_left _ hp,
      by rw [hc]; exact List.mem_cons_self _ _⟩, rfl, rfl, rfl, rfl⟩
  · intro added removed p oldV hA hR
    have hpR : p ∈ removed.map (fun kv => kv.1) := dictGet_some_mem_keys hR
    have hpA : p ∉ added.map (fun kv => kv.1) := dictGet_none_not_mem hA
    have hc : requirementChangeFor removed added p =
        [⟨p, some oldV, none, str "removed",
          assessPackageRisk p (str "removed")⟩] := by
      simp [requirementChangeFor, hA, hR]
    simp only [requirementsChangesFromMaps]
    refine ⟨_, List.mem_flatMap.mpr ⟨p, List.mem_append_right _
      (List.mem_filter.mpr ⟨hpR, decide_eq_true hpA⟩),
      by rw [hc]; exact List.mem_cons_self _ _⟩, rfl, rfl, rfl, rfl⟩
  · intro filename content ctx c hc
    unfold analyzePackageJson at hc
    cases hfp : findFilePatch ctx filename with
    | none => rw [hfp] at hc; exact absurd hc (List.not_mem_nil _)
    | some patch =>
      rw [hfp] at hc
      obtain ⟨line, -, hline⟩ := List.mem_filterMap.mp hc
      split at hline
      · split at hline
        · split at hline
          · cases hline; exact ⟨rfl, rfl⟩
          · cases hline
        · cases hline
      · cases hline
  · intro filename content ctx c hc
    unfold analyzePythonPipfile at hc
    cases hfp : findFilePatch ctx filename with
    | none => rw [hfp] at hc; exact absurd hc (List.not_mem_nil _)
    | some patch =>
      rw [hfp] at hc
      obtain ⟨line, -, hline⟩ := List.mem_filterMap.mp hc
      split at hline
      · split at hline
        · cases hline; exact ⟨rfl, rfl⟩
        · cases hline
      · cases hline
  · intro filename content ctx c hc
    unfold analyzeGoMod at hc
    cases hfp : findFilePatch ctx filename with
    | none => rw [hfp] at hc; exact absurd hc (List.not_mem_nil _)
    | some patch =>
      rw [hfp] at hc
      obtain ⟨line, -, hline⟩ := List.mem_filterMap.mp hc
      split at hline
      · split at hline
        · cases hline; exact ⟨rfl, rfl⟩
        · cases hline
      · cases hline

/-- C4 witness: the three requirement-map cases at concrete maps, and the
added-only behaviour of the `package.json` handler at the concrete lodash
change set. -/
theorem manifest_handlers_classification_witness :
    (∃ c ∈ requirementsChangesFromMaps
        [(str "flask", str "1.10.0")] [(str "flask", str "1.9.0")],
      c.package = str "flask" ∧ c.old_version = some (str "1.9.0") ∧
      c.new_version = some (str "1.10.0") ∧
      c.change_type = determineVersionChangeType (str "1.9.0") (str "1.10.0")) ∧
    (∃ c ∈ requirementsChangesFromMaps [(str "numpy", str "2.0.1")] [],
      c.package = str "numpy" ∧ c.old_version = none ∧
      c.new_version = some (str "2.0.1") ∧ c.change_type = str "added") ∧
    (∃ c ∈ requirementsChangesFromMaps [] [(str "six", str "1.16.0")],
      c.package = str "six" ∧ c.old_version = some (str "1.16.0") ∧
      c.new_version = none ∧ c.change_type = str "removed") ∧
    (str "added" = str "added" ∧ (none : Option Str) = none) :=
  ⟨manifest_handlers_classification.1 [(str "flask", str "1.10.0")]
      [(str "flask", str "1.9.0")] (str "flask") (str "1.9.0") (str "1.10.0")
      (by decide) (by decide),
   manifest_handlers_classification.2.1 [(str "numpy", str "2.0.1")] []
      (str "numpy") (str "2.0.1") (by decide) (by decide),
   manifest_handlers_classification.2.2.1 [] [(str "six", str "1.16.0")]
      (str "six") (str "1.16.0") (by decide) (by decide),
   manifest_handlers_classification.2.2.2.1 (str "package.json")
      (str "ignored") ctxPackageJson
      ⟨str "lodash", none, some (str "4.17.21"), str "added", str "high"⟩
      (by decide)⟩

end PRPipeline
